import Mathlib

/-
Verification of the remote-contents adapter (figlinq/jupyterlab-remote-contents).

The development below is a shallow embedding of the adapter layer in
src/lib/drive.js together with the response-error construction of the
transport helper (ServerConnection.ResponseError.create).  JSON values are
modelled by the inductive type JVal; each adapter operation is a function
from an environment (mapping HTTP requests to outcomes) to a result paired
with an ordered trace of observable effects (requests issued, change events
emitted, browser refreshes, and delegation to saveNotebookAs).
-/

namespace RemoteContents

/-- JavaScript values as produced by JSON parsing, plus undefined. -/
inductive JVal where
  | jundefined
  | jnull
  | jbool (b : Bool)
  | jnum (n : Int)
  | jstr (s : String)
  | jarr (elems : List JVal)
  | jobj (fields : List (String × JVal))
deriving Repr, Inhabited

/-- JavaScript truthiness. -/
def JVal.truthy : JVal → Bool
  | .jundefined => false
  | .jnull => false
  | .jbool b => b
  | .jnum n => n != 0
  | .jstr s => s != ""
  | .jarr _ => true
  | .jobj _ => true

/-- A value is nullish when it is undefined or null (member access throws). -/
def JVal.nullish : JVal → Bool
  | .jundefined => true
  | .jnull => true
  | _ => false

def JVal.isUndef : JVal → Bool
  | .jundefined => true
  | _ => false

/-- Member access with optional-chaining semantics: nullish or primitive
bases yield undefined instead of throwing.  Call sites where the source uses
a plain access on a possibly-nullish base guard with JVal.nullish first. -/
def JVal.jget : JVal → String → JVal
  | .jobj fields, k => ((fields.find? (fun p => p.1 == k)).map Prod.snd).getD .jundefined
  | _, _ => .jundefined

/-- Index access v[i], as used by the error-message extraction. -/
def jidx (v : JVal) (i : Nat) : JVal :=
  match v with
  | .jarr xs => (xs.get? i).getD .jundefined
  | .jobj fs => ((fs.find? (fun p => p.1 == toString i)).map Prod.snd).getD .jundefined
  | .jstr s => match s.data.get? i with
    | some c => .jstr (String.mk [c])
    | none => .jundefined
  | _ => .jundefined

/-- The typeof operator. -/
def typeofJS : JVal → String
  | .jundefined => "undefined"
  | .jnull => "object"
  | .jbool _ => "boolean"
  | .jnum _ => "number"
  | .jstr _ => "string"
  | .jarr _ => "object"
  | .jobj _ => "object"

def isArrayJS : JVal → Bool
  | .jarr _ => true
  | _ => false

/-- Equality test against a string literal (js strict equality with a
string constant: true only for an identical string value). -/
def isStrEq (v : JVal) (s : String) : Bool :=
  match v with
  | .jstr t => t == s
  | _ => false

/-- Strict equality against a number literal. -/
def isNumEq (v : JVal) (n : Int) : Bool :=
  match v with
  | .jnum m => m == n
  | _ => false

mutual
/-- JavaScript String() coercion (template-literal interpolation). -/
def jsToString : JVal → String
  | .jundefined => "undefined"
  | .jnull => "null"
  | .jbool b => cond b "true" "false"
  | .jnum n => toString n
  | .jstr s => s
  | .jarr xs => jsToStringList xs
  | .jobj _ => "[object Object]"
def jsToStringList : List JVal → String
  | [] => ""
  | [x] => jsToStringElem x
  | x :: xs => jsToStringElem x ++ "," ++ jsToStringList xs
def jsToStringElem : JVal → String
  | .jundefined => ""
  | .jnull => ""
  | .jbool b => cond b "true" "false"
  | .jnum n => toString n
  | .jstr s => s
  | .jarr xs => jsToStringList xs
  | .jobj _ => "[object Object]"
end

mutual
/-- JSON.stringify (string escaping elided; only used to model the
double-encoded notebook content in save, whose exact text no claim
inspects). -/
def jsonStringify : JVal → String
  | .jundefined => "null"
  | .jnull => "null"
  | .jbool b => cond b "true" "false"
  | .jnum n => toString n
  | .jstr s => "\"" ++ s ++ "\""
  | .jarr xs => "[" ++ jsonStringifyList xs ++ "]"
  | .jobj fs => "\x7b" ++ jsonStringifyFields fs ++ "\x7d"
def jsonStringifyList : List JVal → String
  | [] => ""
  | [x] => jsonStringify x
  | x :: xs => jsonStringify x ++ "," ++ jsonStringifyList xs
def jsonStringifyFields : List (String × JVal) → String
  | [] => ""
  | [(k, v)] => "\"" ++ k ++ "\":" ++ jsonStringify v
  | (k, v) :: fs => "\"" ++ k ++ "\":" ++ jsonStringify v ++ "," ++ jsonStringifyFields fs
end

mutual
/-- Structural value equality, standing in for the SameValueZero test of
Array.prototype.includes (only reachable through the unused values
parameter of validateProperty). -/
def jvalEq : JVal → JVal → Bool
  | .jundefined, .jundefined => true
  | .jnull, .jnull => true
  | .jbool a, .jbool b => a == b
  | .jnum a, .jnum b => a == b
  | .jstr a, .jstr b => a == b
  | .jarr a, .jarr b => jvalListEq a b
  | .jobj a, .jobj b => jvalFieldsEq a b
  | _, _ => false
def jvalListEq : List JVal → List JVal → Bool
  | [], [] => true
  | a :: as, b :: bs => jvalEq a b && jvalListEq as bs
  | _, _ => false
def jvalFieldsEq : List (String × JVal) → List (String × JVal) → Bool
  | [], [] => true
  | (k1, v1) :: as, (k2, v2) :: bs => k1 == k2 && jvalEq v1 v2 && jvalFieldsEq as bs
  | _, _ => false
end

/-- The parseInt builtin on an optional string argument: undefined or a
string without a leading integer parses to NaN (None). -/
def parseDigits (cs : List Char) : Nat :=
  cs.foldl (fun a c => a * 10 + (c.toNat - 48)) 0

def parseIntJS (s : String) : Option Int :=
  let cs := s.data.dropWhile (fun c => c == ' ' || c == '\t' || c == '\n' || c == '\r')
  match cs with
  | '-' :: rest =>
    let ds := rest.takeWhile Char.isDigit
    if ds.isEmpty then none else some (-(parseDigits ds : Int))
  | '+' :: rest =>
    let ds := rest.takeWhile Char.isDigit
    if ds.isEmpty then none else some (parseDigits ds : Int)
  | _ =>
    let ds := cs.takeWhile Char.isDigit
    if ds.isEmpty then none else some (parseDigits ds : Int)

def parseIntOpt : Option String → Option Int
  | none => none
  | some s => parseIntJS s

/-- Rendering of a parseInt result into a template literal. -/
def intOrNaN : Option Int → String
  | some n => toString n
  | none => "NaN"

/-- The split method of JavaScript strings for a single-character
separator, written structurally over the character list so that it
computes by kernel reduction. -/
def splitAux (sep : Char) : List Char → List Char → List String
  | [], acc => [String.mk acc.reverse]
  | c :: cs, acc =>
    if c == sep then String.mk acc.reverse :: splitAux sep cs []
    else splitAux sep cs (c :: acc)

def splitOnChar (sep : Char) (s : String) : List String :=
  splitAux sep s.data []

/-- The join method of JavaScript arrays of strings. -/
def joinSep (sep : String) : List String → String
  | [] => ""
  | [x] => x
  | x :: xs => x ++ sep ++ joinSep sep xs

/-- The local part of a composite fid, fid.split(sep)[1] with sep = colon. -/
def localIdOf (fid : String) : Option String :=
  (splitOnChar ':' fid).get? 1

/-- An HTTP response as the adapter observes it: status, statusText, and the
body parsed as JSON when it parses (none when response.json() rejects). -/
structure Response where
  status : Nat
  statusText : String
  json : Option JVal

/-- The wrapped error for a non-2xx fetch response
(ServerConnection.ResponseError). -/
structure ResponseError where
  status : Nat
  statusText : String
  message : String
deriving Repr, DecidableEq

/-- The default ResponseError message. -/
def ResponseError.defaultMessage (r : Response) : String :=
  "Invalid response: " ++ toString r.status ++ " " ++ r.statusText

/-- The optional chain data.errors?.[0]?.message used by
ResponseError.create, on a non-nullish data value. -/
def chainMsg (data : JVal) : JVal :=
  let errs := data.jget "errors"
  let e0 := if errs.nullish then JVal.jundefined else jidx errs 0
  if e0.nullish then JVal.jundefined else e0.jget "message"

/-- ServerConnection.ResponseError.create: parse the body; reading
errors[0].message of a nullish body throws inside the try, which falls back
to the plain constructor; an undefined message triggers the default-message
parameter, any other value is coerced to a string by the Error constructor. -/
def ResponseError.create (r : Response) : ResponseError :=
  match r.json with
  | none => ⟨r.status, r.statusText, ResponseError.defaultMessage r⟩
  | some data =>
    if data.nullish then ⟨r.status, r.statusText, ResponseError.defaultMessage r⟩
    else
      let m := chainMsg data
      if m.isUndef then ⟨r.status, r.statusText, ResponseError.defaultMessage r⟩
      else ⟨r.status, r.statusText, jsToString m⟩

/-- Errors an adapter operation can reject with, separated by JavaScript
error class: NetworkError, ResponseError, plain Error (validation and the
unsupported-type rejection), TypeError (nullish dereference and calling a
missing method), SyntaxError (response.json() on a non-JSON body). -/
inductive DriveError where
  | network (msg : String)
  | response (e : ResponseError)
  | jsError (msg : String)
  | typeError (msg : String)
  | syntaxError
deriving Repr

/-- Private.validateProperty support: object.hasOwnProperty(name); throws
on a nullish receiver, is false on any other non-object. -/
def hasOwnB (v : JVal) (k : String) : Bool :=
  match v with
  | .jobj fs => (fs.find? (fun p => p.1 == k)).isSome
  | _ => false

def hasOwnProp (v : JVal) (k : String) : Except DriveError Bool :=
  match v with
  | .jundefined => .error (.typeError ("Cannot read properties of undefined (reading hasOwnProperty " ++ k ++ ")"))
  | .jnull => .error (.typeError ("Cannot read properties of null (reading hasOwnProperty " ++ k ++ ")"))
  | w => .ok (hasOwnB w k)

/-- Private.validateProperty: assert presence of a property, optionally its
coarse type, and optionally membership in a list of allowed values. -/
def validateProperty (object : JVal) (name : String) (typeName : Option String)
    (values : List JVal) : Except DriveError Unit :=
  match hasOwnProp object name with
  | .error e => .error e
  | .ok has =>
    if !has then .error (.jsError ("Missing property " ++ name))
    else
      match typeName with
      | none => .ok ()
      | some tn =>
        let value := object.jget name
        let valid :=
          match tn with
          | "array" => isArrayJS value
          | "object" => typeofJS value != "undefined"
          | _ => typeofJS value == tn
        if !valid then .error (.jsError ("Property " ++ name ++ " is not of type " ++ tn))
        else if values.length > 0 then
          if values.any (fun v => jvalEq v value) then .ok ()
          else .error (.jsError ("Property " ++ name ++ " is not one of the valid values"))
        else .ok ()

/-- Sequencing of validation steps: stop at the first error (fail-fast). -/
def seqE : List (Except DriveError Unit) → Except DriveError Unit
  | [] => .ok ()
  | x :: xs =>
    match x with
    | .error e => .error e
    | .ok _ => seqE xs

/-- Private.validateContentsModel: the eight property assertions, in source
order. -/
def validateContentsModel (model : JVal) : Except DriveError Unit :=
  seqE [
    validateProperty model "name" (some "string") [],
    validateProperty model "path" (some "string") [],
    validateProperty model "type" (some "string") [],
    validateProperty model "created" (some "string") [],
    validateProperty model "last_modified" (some "string") [],
    validateProperty model "mimetype" (some "object") [],
    validateProperty model "content" (some "object") [],
    validateProperty model "format" (some "object") []
  ]

/-- Lookup tables of drive.js. -/
def FILETYPE_TO_TYPE : String → Option String
  | "fold" => some "directory"
  | "html_text" => some "file"
  | "grid" => some "file"
  | "plot" => some "file"
  | "external_image" => some "file"
  | "jupyter_notebook" => some "notebook"
  | _ => none

def FILETYPE_TO_MIMETYPE : String → Option String
  | "html_text" => some "text/html"
  | "grid" => some "application/json"
  | "jupyter_notebook" => some "application/x-ipynb+json"
  | _ => none

def TYPE_TO_MIMETYPE : String → Option String
  | "directory" => some "application/x-directory"
  | "file" => some "text/plain"
  | "notebook" => some "application/x-ipynb+json"
  | _ => none

def TYPE_TO_FORMAT : String → Option String
  | "directory" => some "json"
  | "file" => some "text"
  | "notebook" => some "json"
  | _ => none

/-- Indexing a lookup table with an arbitrary value: property keys are
coerced to strings; a miss yields undefined. -/
def tableGet (tbl : String → Option String) (key : JVal) : JVal :=
  match tbl (jsToString key) with
  | some s => .jstr s
  | none => .jundefined

/-- The a-or-else-b expression (logical OR on truthiness). -/
def jsOrElse (a b : JVal) : JVal :=
  if a.truthy then a else b

/-- The child entry built by Private.transformItem for a truthy item. -/
def transformedEntry (item : JVal) (localPath : JVal) : JVal :=
  .jobj [
    ("name", jsOrElse (item.jget "filename") (.jstr "")),
    ("path", if localPath.truthy
      then .jstr (jsToString localPath ++ "/" ++ jsToString (item.jget "filename"))
      else item.jget "filename"),
    ("last_modified", item.jget "date_modified"),
    ("created", item.jget "creation_time"),
    ("content", .jnull),
    ("format", .jnull),
    ("mimetype", jsOrElse (tableGet FILETYPE_TO_MIMETYPE (jsOrElse (item.jget "filetype") (.jstr ""))) .jnull),
    ("size", .jnull),
    ("writable", .jbool true),
    ("hash", .jnull),
    ("hash_algorithm", .jnull),
    ("type", jsOrElse (tableGet FILETYPE_TO_TYPE (item.jget "filetype")) (.jstr "file"))
  ]

/-- Private.transformItem: throws on a falsy item, otherwise produces the
normalized child entry. -/
def transformItem (item : JVal) (localPath : JVal) : Except DriveError JVal :=
  if !item.truthy then .error (.jsError "Item is missing or undefined.")
  else .ok (transformedEntry item localPath)

/-- Array.prototype.map under a callback that can throw: stop at the first
exception. -/
def mapExcept (f : JVal → Except DriveError JVal) : List JVal → Except DriveError (List JVal)
  | [] => .ok []
  | x :: xs =>
    match f x with
    | .error e => .error e
    | .ok y =>
      match mapExcept f xs with
      | .error e => .error e
      | .ok ys => .ok (y :: ys)

/-- Private.convertToJupyterApi: reshape a raw payload into the host
response model.  When data carries a truthy children property, the
children.results sequence (or an empty list when falsy) is mapped through
transformItem; calling map on a truthy non-array throws. -/
def convertToJupyterApi (data ty name path created lastModified : JVal) :
    Except DriveError JVal :=
  let mimetype := jsOrElse (tableGet TYPE_TO_MIMETYPE (jsOrElse ty (.jstr ""))) .jnull
  let format := jsOrElse (tableGet TYPE_TO_FORMAT (jsOrElse ty (.jstr ""))) .jnull
  let td : Except DriveError JVal :=
    if (data.jget "children").truthy then
      match jsOrElse ((data.jget "children").jget "results") (.jarr []) with
      | .jarr xs =>
        match mapExcept (fun it => transformItem it path) xs with
        | .error e => .error e
        | .ok ys => .ok (JVal.jarr ys)
      | _ => .error (.typeError "results.map is not a function")
    else .ok data
  match td with
  | .error e => .error e
  | .ok td2 =>
    .ok (.jobj [
      ("name", name),
      ("path", path),
      ("last_modified", lastModified),
      ("created", created),
      ("content", td2),
      ("format", format),
      ("mimetype", mimetype),
      ("size", .jnull),
      ("writable", .jbool true),
      ("hash", .jnull),
      ("hash_algorithm", .jnull),
      ("type", ty)
    ])

/-- An HTTP request as issued through ServerConnection.makeRequest: method,
encoded URL path parts under the api endpoint, query parameters, the value
passed to JSON.stringify as the body (none for no body), and headers. -/
structure HttpRequest where
  method : String
  pathParts : List String
  params : List (String × String)
  body : Option JVal
  headers : List (String × String)

/-- Outcome of a fetch: a network-level failure or a response. -/
inductive RequestOutcome where
  | net (msg : String)
  | resp (r : Response)

/-- The remote server, as a deterministic map from requests to outcomes. -/
structure Env where
  respond : HttpRequest → RequestOutcome

/-- Observable effects of an adapter operation, in order: requests issued,
fileChanged emissions (event type, oldValue, newValue), browser refreshes,
and delegation from save to saveNotebookAs. -/
inductive Effect where
  | request (r : HttpRequest)
  | emit (ty : String) (oldValue newValue : JVal)
  | refresh
  | saveAsCall

abbrev Trace := List Effect

abbrev DriveResult := Except DriveError JVal × Trace

/-- Status predicates used by the operations. -/
def ok200 : Nat → Bool := fun s => s == 200
def created201 : Nat → Bool := fun s => s == 201
def ok200or201 : Nat → Bool := fun s => s == 200 || s == 201

/-- Issue a request and parse the JSON body on an accepted status; reject
with a ResponseError otherwise (the status-check-throw-else-json pattern of
every operation in drive.js). -/
def doRequest (env : Env) (req : HttpRequest) (okStatus : Nat → Bool)
    (tr : Trace) : Except DriveError JVal × Trace :=
  match env.respond req with
  | .net m => (.error (.network m), tr ++ [.request req])
  | .resp r =>
    if okStatus r.status then
      match r.json with
      | some data => (.ok data, tr ++ [.request req])
      | none => (.error .syntaxError, tr ++ [.request req])
    else
      (.error (.response (ResponseError.create r)), tr ++ [.request req])

/-- Issue a request whose body is never read (the delete path checks the
status only). -/
def doRequestUnit (env : Env) (req : HttpRequest) (okStatus : Nat → Bool)
    (tr : Trace) : Except DriveError Unit × Trace :=
  match env.respond req with
  | .net m => (.error (.network m), tr ++ [.request req])
  | .resp r =>
    if okStatus r.status then (.ok (), tr ++ [.request req])
    else (.error (.response (ResponseError.create r)), tr ++ [.request req])

/-- The swallowed-conversion-then-validate tail shared by get, newUntitled,
rename and saveNotebookAs: a conversion error is caught and logged, leaving
the model undefined, and validateContentsModel then throws; on success the
change events and refreshes produced by mk follow. -/
def buildAndValidate (conv : Except DriveError JVal) : Except DriveError JVal :=
  let model := match conv with
    | .ok m => m
    | .error _ => JVal.jundefined
  match validateContentsModel model with
  | .error e => .error e
  | .ok _ => .ok model

def finishEmit (conv : Except DriveError JVal) (tr : Trace)
    (mk : JVal → Trace) : DriveResult :=
  match buildAndValidate conv with
  | .error e => (.error e, tr)
  | .ok m => (.ok m, tr ++ mk m)

/-- The same tail without the try/catch (Drive.save converts without a
swallow). -/
def finishEmitStrict (conv : Except DriveError JVal) (tr : Trace)
    (mk : JVal → Trace) : DriveResult :=
  match conv with
  | .error e => (.error e, tr)
  | .ok model =>
    match validateContentsModel model with
    | .error e => (.error e, tr)
    | .ok _ => (.ok model, tr ++ mk model)

/-- The GET files/lookup?path= request. -/
def lookupReq (path : String) : HttpRequest :=
  ⟨"GET", ["files", "lookup"], [("path", path)], none, []⟩

/-- Drive.lookup: resolve a logical path to its remote identity. -/
def Drive.lookup (env : Env) (localPath : String) : DriveResult :=
  doRequest env (lookupReq localPath) ok200 []

/-- Pagination parameters for folder listings. -/
def folderListParams : List (String × String) :=
  [("page", "1"), ("page_size", "100000"), ("order_by", "filename")]

/-- The GET folders/home listing request. -/
def homeFolderReq : HttpRequest :=
  ⟨"GET", ["folders", "home"], folderListParams, none, []⟩

/-- Shared tail of Drive.get: fetch the resolved api path, pick data.file
when truthy, convert and validate (get emits nothing). -/
def Drive.getFetch (env : Env) (pathParts : List String)
    (params : List (String × String)) (ftype : String)
    (nameV lastMod created : JVal) (localPath : String) (tr : Trace) : DriveResult :=
  match doRequest env ⟨"GET", pathParts, params, none, []⟩ ok200 tr with
  | (.error e, tr2) => (.error e, tr2)
  | (.ok data, tr2) =>
    finishEmit (convertToJupyterApi (jsOrElse (data.jget "file") data)
      (tableGet FILETYPE_TO_TYPE (.jstr ftype)) nameV (.jstr localPath)
      created lastMod) tr2 (fun _ => [])

/-- Drive.get: a non-empty path is resolved by lookup first and dispatched
on its filetype; the empty path lists the home folder with a stub lookup. -/
def Drive.get (env : Env) (localPath : String) : DriveResult :=
  if localPath ≠ "" then
    match doRequest env (lookupReq localPath) ok200 [] with
    | (.error e, tr) => (.error e, tr)
    | (.ok lkp, tr) =>
      if lkp.nullish then
        (.error (.typeError "Cannot read properties of a nullish lookup"), tr)
      else if isStrEq (lkp.jget "filetype") "fold" then
        match lkp.jget "fid" with
        | .jstr fid =>
          Drive.getFetch env ["folders", fid] folderListParams "fold"
            (lkp.jget "filename") (lkp.jget "date_modified")
            (lkp.jget "creation_time") localPath tr
        | _ => (.error (.typeError "fid.split is not a function"), tr)
      else if isStrEq (lkp.jget "filetype") "jupyter_notebook" then
        match lkp.jget "fid" with
        | .jstr fid =>
          Drive.getFetch env ["jupyter-notebooks", fid, "content"] [] "jupyter_notebook"
            (lkp.jget "filename") (lkp.jget "date_modified")
            (lkp.jget "creation_time") localPath tr
        | _ => (.error (.typeError "fid.split is not a function"), tr)
      else
        (.error (.jsError "Currently you can only open notebooks and folders!"), tr)
  else
    Drive.getFetch env ["folders", "home"] folderListParams "fold"
      (.jstr "") (.jstr "") (.jstr "") "" []

/-- The fixed empty-notebook payload. -/
def EMPTY_NOTEBOOK : JVal :=
  .jobj [("cells", .jarr []), ("metadata", .jobj []), ("nbformat", .jnum 4), ("nbformat_minor", .jnum 5)]

/-- Options accepted by Drive.newUntitled. -/
structure NewOptions where
  type : JVal
  path : JVal

/-- The POST jupyter-notebooks/upload request, with the parent id and file
name carried in headers and the notebook JSON as body. -/
def uploadReq (parentHeader fileName : String) (content : JVal) : HttpRequest :=
  ⟨"POST", ["jupyter-notebooks", "upload"], [], some content,
    [("plotly-parent", parentHeader), ("plotly-world-readable", "false"),
     ("x-file-name", fileName), ("content-type", "application/json")]⟩

/-- The POST folders request creating an Unnamed Folder under the given
parent value. -/
def folderCreateReq (parent : JVal) : HttpRequest :=
  ⟨"POST", ["folders"], [], some (.jobj [("parent", parent), ("path", .jstr "Unnamed Folder")]),
    [("content-type", "application/json")]⟩

/-- The path of the model returned by newUntitled and saveNotebookAs: the
supplied parent joined to the server-confirmed filename, or the raw
filename when the parent path is falsy. -/
def pathJoinJS (parent fname : JVal) : JVal :=
  if parent.truthy then .jstr (jsToString parent ++ "/" ++ jsToString fname)
  else fname

/-- Shared tail of Drive.newUntitled after the creation request is built:
expect 201, read data.file, convert, validate, emit the new event, and
refresh when requested. -/
def Drive.newCommon (env : Env) (options : NewOptions) (req : HttpRequest)
    (refreshB : Bool) (tr : Trace) : DriveResult :=
  match doRequest env req created201 tr with
  | (.error e, tr2) => (.error e, tr2)
  | (.ok data, tr2) =>
    if data.nullish then
      (.error (.typeError "Cannot read properties of a nullish body"), tr2)
    else if (data.jget "file").nullish then
      (.error (.typeError "Cannot read properties of a nullish file"), tr2)
    else
      let file := data.jget "file"
      let newFileName := file.jget "filename"
      finishEmit (convertToJupyterApi file options.type newFileName
          (pathJoinJS options.path newFileName)
          (file.jget "creation_time") (file.jget "date_modified")) tr2
        (fun m => [.emit "new" .jnull m] ++ (if refreshB then [.refresh] else []))

/-- Drive.newUntitled: create an untitled notebook or an Unnamed Folder.
The notebook branch resolves the parent id with parseInt of the local fid
part and schedules a refresh only for a root-level notebook; the directory
branch keeps the split result as a string and never schedules a refresh;
any other type issues a bare POST against the api endpoint root. -/
def Drive.newUntitled (env : Env) (options : NewOptions) : DriveResult :=
  if isStrEq options.type "notebook" then
    if options.path.truthy then
      match doRequest env (lookupReq (jsToString options.path)) ok200 [] with
      | (.error e, tr) => (.error e, tr)
      | (.ok plkp, tr) =>
        if plkp.nullish then
          (.error (.typeError "Cannot read properties of a nullish lookup"), tr)
        else
          match plkp.jget "fid" with
          | .jstr pf =>
            Drive.newCommon env options
              (uploadReq (intOrNaN (parseIntOpt (localIdOf pf))) "Untitled notebook.ipynb" EMPTY_NOTEBOOK)
              false tr
          | _ => (.error (.typeError "fid.split is not a function"), tr)
    else
      Drive.newCommon env options (uploadReq "-1" "Untitled notebook.ipynb" EMPTY_NOTEBOOK) true []
  else if isStrEq options.type "directory" then
    if options.path.truthy then
      match doRequest env (lookupReq (jsToString options.path)) ok200 [] with
      | (.error e, tr) => (.error e, tr)
      | (.ok lkp, tr) =>
        if lkp.nullish then
          (.error (.typeError "Cannot read properties of a nullish lookup"), tr)
        else
          match lkp.jget "fid" with
          | .jstr f =>
            Drive.newCommon env options
              (folderCreateReq (match localIdOf f with
                | some s => .jstr s
                | none => .jundefined))
              false tr
          | _ => (.error (.typeError "fid.split is not a function"), tr)
    else
      Drive.newCommon env options (folderCreateReq (.jnum (-1))) false []
  else
    Drive.newCommon env options ⟨"POST", [], [], none, []⟩ false []

/-- The POST files/fid/trash request. -/
def trashReq (fid : String) : HttpRequest :=
  ⟨"POST", ["files", fid, "trash"], [], none, []⟩

/-- Drive.delete: resolve by lookup, move to trash, emit the delete event,
and refresh the browser exactly when the parent of the deleted item is the
number -1 (strict equality). -/
def Drive.delete (env : Env) (localPath : String) : DriveResult :=
  match doRequest env (lookupReq localPath) ok200 [] with
  | (.error e, tr) => (.error e, tr)
  | (.ok lkp, tr) =>
    if lkp.nullish then
      (.error (.typeError "Cannot read properties of a nullish lookup"), tr)
    else
      match lkp.jget "fid" with
      | .jstr fid =>
        match doRequestUnit env (trashReq fid) ok200 tr with
        | (.error e, tr2) => (.error e, tr2)
        | (.ok _, tr2) =>
          let tr3 := tr2 ++ [.emit "delete" (.jobj [("path", .jstr localPath)]) .jnull]
          if isNumEq (lkp.jget "parent") (-1) then (.ok .jundefined, tr3 ++ [.refresh])
          else (.ok .jundefined, tr3)
      | _ => (.error (.typeError "fid is not encodable"), tr)

/-- The PATCH files/fid request carrying the rename body. -/
def filesPatchReq (fid : String) (body : JVal) : HttpRequest :=
  ⟨"PATCH", ["files", fid], [], some body, [("content-type", "application/json")]⟩

/-- The parent path of a slash-delimited path: all segments but the last,
re-joined (slice and join of drive.js). -/
def parentPathOf (p : String) : String :=
  joinSep "/" ((splitOnChar '/' p).dropLast)

/-- The leaf segment of a slash-delimited path. -/
def leafOf (p : String) : String :=
  (splitOnChar '/' p).getLastD ""

/-- The parent-id resolution step of Drive.rename: -1 for the root, an
extra lookup with parseInt of the local fid part when the parents differ,
and the parent of the initial lookup otherwise. -/
def renameResolve (env : Env) (fileLookup : JVal) (oldParentPath newParentPath : String)
    (tr : Trace) : Except DriveError JVal × Trace :=
  if newParentPath = "" then (.ok (.jnum (-1)), tr)
  else if oldParentPath ≠ newParentPath then
    match doRequest env (lookupReq newParentPath) ok200 tr with
    | (.error e, tr2) => (.error e, tr2)
    | (.ok plkp, tr2) =>
      if plkp.nullish then
        (.error (.typeError "Cannot read properties of a nullish lookup"), tr2)
      else
        match plkp.jget "fid" with
        | .jstr g =>
          (.ok (match parseIntOpt (localIdOf g) with
            | some n => .jnum n
            | none => .jnull), tr2)
        | _ => (.error (.typeError "fid.split is not a function"), tr2)
  else (.ok (fileLookup.jget "parent"), tr)

/-- The PATCH files/fid step of Drive.rename, followed by the rename event
and an unconditional browser refresh. -/
def renamePatch (env : Env) (fileLookup newParentIdlocal : JVal)
    (oldLocalPath newLocalPath : String) (tr2 : Trace) : DriveResult :=
  match fileLookup.jget "fid" with
  | .jstr fid =>
    match doRequest env (filesPatchReq fid (.jobj [
        ("filename", .jstr (leafOf newLocalPath)),
        ("parent", newParentIdlocal),
        ("fid", .jstr fid)])) ok200 tr2 with
    | (.error e, tr3) => (.error e, tr3)
    | (.ok data, tr3) =>
      if data.nullish then
        (.error (.typeError "Cannot read properties of a nullish body"), tr3)
      else
        finishEmit (convertToJupyterApi .jnull
            (tableGet FILETYPE_TO_TYPE (fileLookup.jget "filetype"))
            (.jstr (leafOf newLocalPath)) (.jstr newLocalPath)
            (data.jget "creation_time") (data.jget "date_modified")) tr3
          (fun _ => [.emit "rename" (.jobj [("path", .jstr oldLocalPath)])
            (.jobj [("path", .jstr newLocalPath)]), .refresh])
  | _ => (.error (.typeError "fid is not encodable"), tr2)

/-- Drive.rename: move-aware rename; one initial lookup, the parent
resolution step, a single PATCH files/fid, the rename event and an
unconditional refresh. -/
def Drive.rename (env : Env) (oldLocalPath newLocalPath : String) : DriveResult :=
  match doRequest env (lookupReq oldLocalPath) ok200 [] with
  | (.error e, tr) => (.error e, tr)
  | (.ok fileLookup, tr) =>
    if fileLookup.nullish then
      (.error (.typeError "Cannot read properties of a nullish lookup"), tr)
    else
      match renameResolve env fileLookup (parentPathOf oldLocalPath)
          (parentPathOf newLocalPath) tr with
      | (.error e, tr2) => (.error e, tr2)
      | (.ok newParentIdlocal, tr2) =>
        renamePatch env fileLookup newParentIdlocal oldLocalPath newLocalPath tr2

/-- Options accepted by Drive.save and Drive.saveNotebookAs. -/
structure SaveOptions where
  path : JVal
  content : JVal
  type : JVal

/-- The parent resolution step of Drive.saveNotebookAs: a bare filename
creates at root (parent -1, refresh scheduled), a nested path looks the
parent up and takes the parseInt of its local fid part. -/
def saveAsResolve (env : Env) (p : String) :
    Except DriveError (Option Int × String × Bool) × Trace :=
  if (splitOnChar '/' p).length == 1 then (.ok (some (-1), p, true), [])
  else
    match doRequest env (lookupReq (parentPathOf p)) ok200 [] with
    | (.error e, tr) => (.error e, tr)
    | (.ok plkp, tr) =>
      if plkp.nullish then
        (.error (.typeError "Cannot read properties of a nullish lookup"), tr)
      else
        match plkp.jget "fid" with
        | .jstr pf => (.ok (parseIntOpt (localIdOf pf), leafOf p, false), tr)
        | _ => (.error (.typeError "fid.split is not a function"), tr)

/-- The upload step of Drive.saveNotebookAs: POST the content with parent
and filename in headers, convert data.file, validate, emit the new event,
refresh when creating at root. -/
def saveAsUpload (env : Env) (options : SaveOptions) (parentIdLocal : Option Int)
    (fileName : String) (refreshB : Bool) (tr : Trace) : DriveResult :=
  match doRequest env (uploadReq (intOrNaN parentIdLocal) fileName options.content) created201 tr with
  | (.error e, tr2) => (.error e, tr2)
  | (.ok data, tr2) =>
    if data.nullish then
      (.error (.typeError "Cannot read properties of a nullish body"), tr2)
    else if (data.jget "file").nullish then
      (.error (.typeError "Cannot read properties of a nullish file"), tr2)
    else
      finishEmit (convertToJupyterApi (data.jget "file") options.type
          ((data.jget "file").jget "filename") options.path
          ((data.jget "file").jget "creation_time")
          ((data.jget "file").jget "date_modified")) tr2
        (fun m => [.emit "new" .jnull m] ++ (if refreshB then [.refresh] else []))

/-- Drive.saveNotebookAs: split the target path into parent and filename,
resolve the parent, then upload; a non-string path throws on split. -/
def Drive.saveNotebookAs (env : Env) (options : SaveOptions) : DriveResult :=
  match options.path with
  | .jstr p =>
    match saveAsResolve env p with
    | (.error e, tr) => (.error e, tr)
    | (.ok (parentIdLocal, fileName, refreshB), tr) =>
      saveAsUpload env options parentIdLocal fileName refreshB tr
  | _ => (.error (.typeError "options.path.split is not a function"), [])

/-- The PATCH jupyter-notebooks/fid request carrying the double-encoded
content envelope. -/
def notebookPatchReq (fid : String) (content : JVal) : HttpRequest :=
  ⟨"PATCH", ["jupyter-notebooks", fid], [],
    some (.jobj [("content", .jstr (jsonStringify content))]),
    [("content-type", "application/json")]⟩

/-- The update step of Drive.save: PATCH the notebook content sub-resource
(200 or 201 accepted), convert without a catch, validate, emit save. -/
def saveUpdate (env : Env) (options : SaveOptions) (localPath : String)
    (lkp : JVal) (tr : Trace) : DriveResult :=
  match lkp.jget "fid" with
  | .jstr fid =>
    match doRequest env (notebookPatchReq fid options.content) ok200or201 tr with
    | (.error e, tr2) => (.error e, tr2)
    | (.ok data, tr2) =>
      if data.nullish then
        (.error (.typeError "Cannot read properties of a nullish body"), tr2)
      else
        finishEmitStrict (convertToJupyterApi .jnull
            (tableGet FILETYPE_TO_TYPE (lkp.jget "filetype"))
            (lkp.jget "filename") (.jstr localPath)
            (data.jget "creation_time") (data.jget "date_modified")) tr2
          (fun m => [.emit "save" .jnull m])
  | _ => (.error (.typeError "fid is not encodable"), tr)

/-- Drive.save: a truthy options.path is looked up inside a try; a lookup
failure of any kind falls back to saveNotebookAs; a falsy options.path
skips the lookup leaving null, so building the update URL dereferences
null and throws before any request or event; on a successful lookup the
single update PATCH follows. -/
def Drive.save (env : Env) (localPath : String) (options : SaveOptions) : DriveResult :=
  if options.path.truthy then
    match Drive.lookup env (jsToString options.path) with
    | (.error _, tr) =>
      ((Drive.saveNotebookAs env options).1,
       tr ++ Effect.saveAsCall :: (Drive.saveNotebookAs env options).2)
    | (.ok lkp, tr) =>
      if lkp.nullish then
        (.error (.typeError "Cannot read properties of a nullish lookup"), tr)
      else
        saveUpdate env options localPath lkp tr
  else
    (.error (.typeError "Cannot read properties of null (reading fid)"), [])

/-- Effect classifiers used to count what a trace contains. -/
def isLookupE : Effect → Bool
  | .request r => r.method == "GET" && r.pathParts == ["files", "lookup"]
  | _ => false

def isNbPatchE : Effect → Bool
  | .request r => r.method == "PATCH" && r.pathParts.headD "" == "jupyter-notebooks"
  | _ => false

def isFilesPatchE : Effect → Bool
  | .request r => r.method == "PATCH" && r.pathParts.headD "" == "files"
  | _ => false

def isUploadE : Effect → Bool
  | .request r => r.method == "POST" && r.pathParts == ["jupyter-notebooks", "upload"]
  | _ => false

def isFolderPostE : Effect → Bool
  | .request r => r.method == "POST" && r.pathParts == ["folders"]
  | _ => false

def isRequestE : Effect → Bool
  | .request _ => true
  | _ => false

def isRefreshE : Effect → Bool
  | .refresh => true
  | _ => false

def isSaveAsE : Effect → Bool
  | .saveAsCall => true
  | _ => false

def isEmitE (ty : String) : Effect → Bool
  | .emit t _ _ => t == ty
  | _ => false

/-- Count the effects of a trace matched by a classifier. -/
def countE (t : Trace) (p : Effect → Bool) : Nat := t.countP p

/-- Presence and coarse type of the eight fields that
validateContentsModel actually asserts. -/
def fieldIsString (m : JVal) (k : String) : Bool :=
  hasOwnB m k && typeofJS (m.jget k) == "string"

def fieldIsObjectish (m : JVal) (k : String) : Bool :=
  hasOwnB m k && typeofJS (m.jget k) != "undefined"

def eightOK (m : JVal) : Bool :=
  fieldIsString m "name" && fieldIsString m "path" && fieldIsString m "type" &&
  fieldIsString m "created" && fieldIsString m "last_modified" &&
  fieldIsObjectish m "mimetype" && fieldIsObjectish m "content" &&
  fieldIsObjectish m "format"

/-- Presence of all nine required fields of the host response model: the
eight checked ones plus writable. -/
def nineFieldsPresent (m : JVal) : Bool :=
  hasOwnB m "name" && hasOwnB m "path" && hasOwnB m "type" &&
  hasOwnB m "created" && hasOwnB m "last_modified" && hasOwnB m "mimetype" &&
  hasOwnB m "content" && hasOwnB m "format" && hasOwnB m "writable"

/-- Query path parameter of a request, used by the concrete environments
below to tell lookups apart. -/
def reqPath (r : HttpRequest) : String :=
  ((r.params.find? (fun p => p.1 == "path")).map Prod.snd).getD ""

/-- A well-formed lookup payload, used by the concrete environments. -/
def lkpData (fid ft fn : String) (parent : Int) : JVal :=
  .jobj [("fid", .jstr fid), ("filetype", .jstr ft), ("filename", .jstr fn),
         ("parent", .jnum parent), ("date_modified", .jstr "2020-01-02"),
         ("creation_time", .jstr "2020-01-01")]

/-- A creation payload carrying the server-confirmed filename. -/
def fileBody (fn : String) : JVal :=
  .jobj [("file", .jobj [("filename", .jstr fn), ("date_modified", .jstr "2020-01-02"),
         ("creation_time", .jstr "2020-01-01")])]

/-- A single child notebook item of a folder listing. -/
def childW : JVal :=
  .jobj [("filename", .jstr "a.ipynb"), ("filetype", .jstr "jupyter_notebook"),
         ("date_modified", .jstr "2020-01-02"), ("creation_time", .jstr "2020-01-01")]

/-- A folder listing with a single child notebook. -/
def oneChildBody : JVal :=
  .jobj [("children", .jobj [("results", .jarr [childW])])]

/-- A model carrying the eight validated fields but no writable field. -/
def modelNoWritable : JVal :=
  .jobj [("name", .jstr "a"), ("path", .jstr "a"), ("type", .jstr "file"),
         ("created", .jstr "2020-01-01"), ("last_modified", .jstr "2020-01-02"),
         ("mimetype", .jnull), ("content", .jnull), ("format", .jnull)]

/-- Environment for the home listing round trip. -/
def envHomeW : Env := ⟨fun req =>
  if req.pathParts == ["folders", "home"] then .resp ⟨200, "OK", some oneChildBody⟩
  else .net "unexpected request"⟩

/-- Environment where the lookup of n.ipynb fails and the upload succeeds. -/
def envSaveFallback : Env := ⟨fun req =>
  if req.pathParts == ["files", "lookup"] then
    .resp ⟨404, "Not Found", some (.jobj [("errors", .jarr [.jobj [("message", .jstr "Resource not found")]])])⟩
  else if req.pathParts == ["jupyter-notebooks", "upload"] then
    .resp ⟨201, "Created", some (fileBody "n.ipynb")⟩
  else .net "unexpected request"⟩

/-- Environment where the lookup of n.ipynb succeeds and the content PATCH
succeeds. -/
def envSaveUpdate : Env := ⟨fun req =>
  if req.pathParts == ["files", "lookup"] then
    .resp ⟨200, "OK", some (lkpData "42:3" "jupyter_notebook" "n.ipynb" (-1))⟩
  else if req.pathParts == ["jupyter-notebooks", "42:3"] then
    .resp ⟨200, "OK", some (.jobj [("date_modified", .jstr "2020-01-03"), ("creation_time", .jstr "2020-01-01")])⟩
  else .net "unexpected request"⟩

/-- Environment for renames out of folder A: the old file and the new
parent folder B both resolve, and the PATCH succeeds. -/
def envRenameW : Env := ⟨fun req =>
  if req.pathParts == ["files", "lookup"] && reqPath req == "A/x.ipynb" then
    .resp ⟨200, "OK", some (lkpData "42:3" "jupyter_notebook" "x.ipynb" 7)⟩
  else if req.pathParts == ["files", "lookup"] && reqPath req == "B" then
    .resp ⟨200, "OK", some (lkpData "42:9" "fold" "B" (-1))⟩
  else if req.pathParts == ["files", "42:3"] then
    .resp ⟨200, "OK", some (.jobj [("date_modified", .jstr "2020-01-03"), ("creation_time", .jstr "2020-01-01")])⟩
  else .net "unexpected request"⟩

/-- Environment where creating an Unnamed Folder at the root succeeds. -/
def envNewDirRoot : Env := ⟨fun req =>
  if req.pathParts == ["folders"] && req.method == "POST" then
    .resp ⟨201, "Created", some (fileBody "Unnamed Folder")⟩
  else .net "unexpected request"⟩

/-- Environment where creating an untitled notebook at the root succeeds. -/
def envNewNbRoot : Env := ⟨fun req =>
  if req.pathParts == ["jupyter-notebooks", "upload"] then
    .resp ⟨201, "Created", some (fileBody "Untitled notebook.ipynb")⟩
  else .net "unexpected request"⟩

/-- Environment where folder A resolves and creating a folder inside it
succeeds. -/
def envNewDirSub : Env := ⟨fun req =>
  if req.pathParts == ["files", "lookup"] then
    .resp ⟨200, "OK", some (lkpData "42:7" "fold" "A" (-1))⟩
  else if req.pathParts == ["folders"] then
    .resp ⟨201, "Created", some (fileBody "Unnamed Folder")⟩
  else .net "unexpected request"⟩

/-- Environment where a root-level plot resolves and trashing succeeds. -/
def envDeleteW : Env := ⟨fun req =>
  if req.pathParts == ["files", "lookup"] then
    .resp ⟨200, "OK", some (lkpData "42:3" "plot" "p" (-1))⟩
  else if req.pathParts == ["files", "42:3", "trash"] then
    .resp ⟨200, "OK", none⟩
  else .net "unexpected request"⟩

/-- Environment where the looked-up resource is a grid (neither a folder
nor a notebook). -/
def envGridW : Env := ⟨fun req =>
  if req.pathParts == ["files", "lookup"] then
    .resp ⟨200, "OK", some (lkpData "42:9" "grid" "G" 3)⟩
  else .net "unexpected request"⟩

/-- The 404 response with a server-supplied error message. -/
def resp404W : Response :=
  ⟨404, "Not Found", some (.jobj [("errors", .jarr [.jobj [("message", .jstr "Resource not found")]])])⟩

/-- Environment rejecting every lookup with resp404W. -/
def env404W : Env := ⟨fun req =>
  if req.pathParts == ["files", "lookup"] then .resp resp404W
  else .net "unexpected request"⟩

/-- Save options used by the concrete instantiations. -/
def saveOptsW : SaveOptions := ⟨.jstr "n.ipynb", EMPTY_NOTEBOOK, .jstr "notebook"⟩

/-- Save options with an undefined path. -/
def saveOptsNoPath : SaveOptions := ⟨.jundefined, EMPTY_NOTEBOOK, .jstr "notebook"⟩

/-- Concrete results and their model and trace projections, used as
instantiation points by the closed corollaries below. -/
def resSaveW : DriveResult := Drive.save envSaveUpdate "n.ipynb" saveOptsW

def mSaveW : JVal :=
  match resSaveW.1 with
  | .ok m => m
  | .error _ => .jundefined

def optsDirRoot : NewOptions := ⟨.jstr "directory", .jundefined⟩

def resDirRoot : DriveResult := Drive.newUntitled envNewDirRoot optsDirRoot

def mDirRoot : JVal :=
  match resDirRoot.1 with
  | .ok m => m
  | .error _ => .jundefined

def optsNbRoot : NewOptions := ⟨.jstr "notebook", .jundefined⟩

def resNbRoot : DriveResult := Drive.newUntitled envNewNbRoot optsNbRoot

def mNbRoot : JVal :=
  match resNbRoot.1 with
  | .ok m => m
  | .error _ => .jundefined

def optsDirSub : NewOptions := ⟨.jstr "directory", .jstr "A"⟩

def resDirSub : DriveResult := Drive.newUntitled envNewDirSub optsDirSub

def mDirSub : JVal :=
  match resDirSub.1 with
  | .ok m => m
  | .error _ => .jundefined

/-- A doRequest against an accepting status with a parsed body yields the
body and appends the request. -/
theorem doRequest_ok {env : Env} {req : HttpRequest} {okSt : Nat → Bool}
    {r : Response} {data : JVal} (tr : Trace)
    (hresp : env.respond req = .resp r) (hok : okSt r.status = true)
    (hjson : r.json = some data) :
    doRequest env req okSt tr = (.ok data, tr ++ [.request req]) := by
  unfold doRequest
  rw [hresp]
  dsimp only
  rw [if_pos hok, hjson]

/-- A doRequest against a rejecting status yields the wrapped
ResponseError and appends the request. -/
theorem doRequest_err {env : Env} {req : HttpRequest} {okSt : Nat → Bool}
    {r : Response} (tr : Trace)
    (hresp : env.respond req = .resp r) (hok : okSt r.status = false) :
    doRequest env req okSt tr =
      (.error (.response (ResponseError.create r)), tr ++ [.request req]) := by
  unfold doRequest
  rw [hresp]
  dsimp only
  rw [if_neg (by rw [hok]; exact Bool.false_ne_true)]

/-- The doRequestUnit analogue for an accepted status. -/
theorem doRequestUnit_ok {env : Env} {req : HttpRequest} {okSt : Nat → Bool}
    {r : Response} (tr : Trace)
    (hresp : env.respond req = .resp r) (hok : okSt r.status = true) :
    doRequestUnit env req okSt tr = (.ok (), tr ++ [.request req]) := by
  unfold doRequestUnit
  rw [hresp]
  dsimp only
  rw [if_pos hok]

/-- A pair whose first component is an error never equals a success pair. -/
theorem pairErrOk {e : DriveError} {tr : Trace} {m : JVal} {t : Trace}
    (h : ((Except.error e : Except DriveError JVal), tr) = (Except.ok m, t)) : False :=
  Except.noConfusion (congrArg Prod.fst h)

/-- Every doRequest outcome appends exactly the issued request to the
trace. -/
theorem doRequest_trace (env : Env) (req : HttpRequest) (okStatus : Nat → Bool)
    (tr : Trace) : (doRequest env req okStatus tr).2 = tr ++ [.request req] := by
  unfold doRequest
  cases env.respond req with
  | net m => rfl
  | resp r =>
    dsimp only
    by_cases h : okStatus r.status
    · rw [if_pos h]
      cases r.json <;> rfl
    · rw [if_neg h]

/-- Every doRequestUnit outcome appends exactly the issued request. -/
theorem doRequestUnit_trace (env : Env) (req : HttpRequest) (okStatus : Nat → Bool)
    (tr : Trace) : (doRequestUnit env req okStatus tr).2 = tr ++ [.request req] := by
  unfold doRequestUnit
  cases env.respond req with
  | net m => rfl
  | resp r =>
    dsimp only
    by_cases h : okStatus r.status
    · rw [if_pos h]
    · rw [if_neg h]

/-- Validating the undefined model thrown away by the conversion catch
always fails. -/
theorem validateContentsModel_undef :
    validateContentsModel JVal.jundefined =
      .error (.typeError "Cannot read properties of undefined (reading hasOwnProperty name)") := rfl

/-- A successful finishEmit means the conversion succeeded, the model
validated, and the trace gained exactly the mk effects. -/
theorem finishEmit_ok {conv : Except DriveError JVal} {tr : Trace}
    {mk : JVal → Trace} {m : JVal} {t : Trace}
    (h : finishEmit conv tr mk = (.ok m, t)) :
    conv = .ok m ∧ validateContentsModel m = .ok () ∧ t = tr ++ mk m := by
  unfold finishEmit buildAndValidate at h
  cases hc : conv with
  | error e =>
    rw [hc] at h
    dsimp only at h
    rw [validateContentsModel_undef] at h
    exact (pairErrOk h).elim
  | ok model =>
    rw [hc] at h
    dsimp only at h
    cases hv : validateContentsModel model with
    | error e =>
      rw [hv] at h
      exact (pairErrOk h).elim
    | ok u =>
      rw [hv] at h
      dsimp only at h
      have h1 : Except.ok model = (Except.ok m : Except DriveError JVal) := congrArg Prod.fst h
      have h2 : model = m := Except.ok.inj h1
      subst h2
      exact ⟨rfl, hv, (congrArg Prod.snd h).symm⟩

/-- The strict variant used by save. -/
theorem finishEmitStrict_ok {conv : Except DriveError JVal} {tr : Trace}
    {mk : JVal → Trace} {m : JVal} {t : Trace}
    (h : finishEmitStrict conv tr mk = (.ok m, t)) :
    conv = .ok m ∧ validateContentsModel m = .ok () ∧ t = tr ++ mk m := by
  unfold finishEmitStrict at h
  cases hc : conv with
  | error e =>
    rw [hc] at h
    exact (pairErrOk h).elim
  | ok model =>
    rw [hc] at h
    dsimp only at h
    cases hv : validateContentsModel model with
    | error e =>
      rw [hv] at h
      exact (pairErrOk h).elim
    | ok u =>
      rw [hv] at h
      dsimp only at h
      have h2 : model = m := Except.ok.inj (congrArg Prod.fst h)
      subst h2
      exact ⟨rfl, hv, (congrArg Prod.snd h).symm⟩

/-- A successful conversion always produces a model carrying all nine
required fields (writable included, set to true by construction). -/
theorem convertToJupyterApi_present {d ty n p c l : JVal} {m : JVal}
    (h : convertToJupyterApi d ty n p c l = .ok m) : nineFieldsPresent m = true := by
  unfold convertToJupyterApi at h
  dsimp only at h
  split at h
  · exact Except.noConfusion h
  · have h2 := Except.ok.inj h
    subst h2
    rfl

/-- Reduction of a two-test fail-fast check to a Boolean conjunction. -/
theorem twoTestOk (b1 b2 : Bool) (e1 e2 : DriveError) :
    ((if !b1 then Except.error e1
      else if !b2 then (Except.error e2 : Except DriveError Unit)
      else Except.ok ()) = Except.ok ()) ↔ (b1 && b2) = true := by
  cases b1 <;> cases b2 <;> simp

/-- A string-typed property assertion succeeds exactly when the field is
present with a string value. -/
theorem validateProperty_string_ok (m : JVal) (k : String) :
    validateProperty m k (some "string") [] = .ok () ↔ fieldIsString m k = true := by
  cases m
  case jobj fs =>
    rw [show validateProperty (JVal.jobj fs) k (some "string") [] =
      (if !(hasOwnB (JVal.jobj fs) k)
       then Except.error (DriveError.jsError ("Missing property " ++ k))
       else if !(typeofJS ((JVal.jobj fs).jget k) == "string")
       then Except.error (DriveError.jsError ("Property " ++ k ++ " is not of type " ++ "string"))
       else Except.ok ()) from rfl]
    rw [twoTestOk]
    exact Iff.rfl
  all_goals simp [validateProperty, hasOwnProp, fieldIsString, hasOwnB]

/-- An object-typed property assertion succeeds exactly when the field is
present with a defined value. -/
theorem validateProperty_object_ok (m : JVal) (k : String) :
    validateProperty m k (some "object") [] = .ok () ↔ fieldIsObjectish m k = true := by
  cases m
  case jobj fs =>
    rw [show validateProperty (JVal.jobj fs) k (some "object") [] =
      (if !(hasOwnB (JVal.jobj fs) k)
       then Except.error (DriveError.jsError ("Missing property " ++ k))
       else if !(typeofJS ((JVal.jobj fs).jget k) != "undefined")
       then Except.error (DriveError.jsError ("Property " ++ k ++ " is not of type " ++ "object"))
       else Except.ok ()) from rfl]
    rw [twoTestOk]
    exact Iff.rfl
  all_goals simp [validateProperty, hasOwnProp, fieldIsObjectish, hasOwnB]

/-- Sequencing of no steps succeeds. -/
theorem seqE_nil : seqE [] = .ok () := rfl

/-- Sequencing succeeds exactly when the head and the tail succeed. -/
theorem seqE_cons_ok (x : Except DriveError Unit) (xs : List (Except DriveError Unit)) :
    seqE (x :: xs) = .ok () ↔ x = .ok () ∧ seqE xs = .ok () := by
  cases x with
  | error e => simp [seqE]
  | ok u => cases u; simp [seqE]

/-- The validator accepts a model exactly when the eight checked fields are
present with the asserted coarse types. -/
theorem validateContentsModel_ok_iff (m : JVal) :
    validateContentsModel m = .ok () ↔ eightOK m = true := by
  simp only [validateContentsModel, seqE_cons_ok, seqE_nil, eightOK,
    validateProperty_string_ok, validateProperty_object_ok, Bool.and_eq_true,
    and_assoc, and_true]

/-- Mapping transformItem over a list of truthy items succeeds and yields
the transformed entries in order. -/
theorem mapExcept_transform (p : JVal) (items : List JVal)
    (h : ∀ it ∈ items, it.truthy = true) :
    mapExcept (fun it => transformItem it p) items =
      .ok (items.map (fun it => transformedEntry it p)) := by
  induction items with
  | nil => rfl
  | cons x xs ih =>
    have hx : x.truthy = true := h x (by simp)
    have hxs : ∀ it ∈ xs, it.truthy = true := fun it hit => h it (by simp [hit])
    have htr : transformItem x p = .ok (transformedEntry x p) := by
      simp [transformItem, hx]
    unfold mapExcept
    rw [htr, ih hxs]
    rfl

/-- A successful getFetch returns a converted, validated model. -/
theorem getFetch_ok_fields {env : Env} {pp : List String}
    {params : List (String × String)} {ft : String} {nv lm cr : JVal}
    {lp : String} {tr : Trace} {m : JVal} {t : Trace}
    (h : Drive.getFetch env pp params ft nv lm cr lp tr = (.ok m, t)) :
    nineFieldsPresent m = true ∧ validateContentsModel m = .ok () := by
  unfold Drive.getFetch at h
  split at h
  · exact (pairErrOk h).elim
  · obtain ⟨hc, hv, -⟩ := finishEmit_ok h
    exact ⟨convertToJupyterApi_present hc, hv⟩

/-- A successful get returns a converted, validated model. -/
theorem get_ok_fields {env : Env} {p : String} {m : JVal} {t : Trace}
    (h : Drive.get env p = (.ok m, t)) :
    nineFieldsPresent m = true ∧ validateContentsModel m = .ok () := by
  unfold Drive.get at h
  split at h
  · split at h
    · exact (pairErrOk h).elim
    · split at h
      · exact (pairErrOk h).elim
      · split at h
        · split at h
          · exact getFetch_ok_fields h
          · exact (pairErrOk h).elim
        · split at h
          · split at h
            · exact getFetch_ok_fields h
            · exact (pairErrOk h).elim
          · exact (pairErrOk h).elim
  · exact getFetch_ok_fields h

/-- A successful newCommon returns a converted, validated model. -/
theorem newCommon_ok_fields {env : Env} {options : NewOptions}
    {req : HttpRequest} {refreshB : Bool} {tr : Trace} {m : JVal} {t : Trace}
    (h : Drive.newCommon env options req refreshB tr = (.ok m, t)) :
    nineFieldsPresent m = true ∧ validateContentsModel m = .ok () := by
  unfold Drive.newCommon at h
  split at h
  · exact (pairErrOk h).elim
  · split at h
    · exact (pairErrOk h).elim
    · split at h
      · exact (pairErrOk h).elim
      · obtain ⟨hc, hv, -⟩ := finishEmit_ok h
        exact ⟨convertToJupyterApi_present hc, hv⟩

/-- A successful newUntitled returns a converted, validated model. -/
theorem newUntitled_ok_fields {env : Env} {options : NewOptions} {m : JVal}
    {t : Trace} (h : Drive.newUntitled env options = (.ok m, t)) :
    nineFieldsPresent m = true ∧ validateContentsModel m = .ok () := by
  unfold Drive.newUntitled at h
  split at h
  · split at h
    · split at h
      · exact (pairErrOk h).elim
      · split at h
        · exact (pairErrOk h).elim
        · split at h
          · exact newCommon_ok_fields h
          · exact (pairErrOk h).elim
    · exact newCommon_ok_fields h
  · split at h
    · split at h
      · split at h
        · exact (pairErrOk h).elim
        · split at h
          · exact (pairErrOk h).elim
          · split at h
            · exact newCommon_ok_fields h
            · exact (pairErrOk h).elim
      · exact newCommon_ok_fields h
    · exact newCommon_ok_fields h

/-- A successful renamePatch returns a converted, validated model. -/
theorem renamePatch_ok_fields {env : Env} {fileLookup npid : JVal}
    {oldP newP : String} {tr : Trace} {m : JVal} {t : Trace}
    (h : renamePatch env fileLookup npid oldP newP tr = (.ok m, t)) :
    nineFieldsPresent m = true ∧ validateContentsModel m = .ok () := by
  unfold renamePatch at h
  repeat' (first
    | exact (pairErrOk h).elim
    | (obtain ⟨hc, hv, -⟩ := finishEmit_ok h
       exact ⟨convertToJupyterApi_present hc, hv⟩)
    | split at h)

/-- A successful rename returns a converted, validated model. -/
theorem rename_ok_fields {env : Env} {oldP newP : String} {m : JVal}
    {t : Trace} (h : Drive.rename env oldP newP = (.ok m, t)) :
    nineFieldsPresent m = true ∧ validateContentsModel m = .ok () := by
  unfold Drive.rename at h
  split at h
  · exact (pairErrOk h).elim
  · split at h
    · exact (pairErrOk h).elim
    · split at h
      · exact (pairErrOk h).elim
      · exact renamePatch_ok_fields h

/-- A successful saveAsUpload returns a converted, validated model. -/
theorem saveAsUpload_ok_fields {env : Env} {options : SaveOptions}
    {pid : Option Int} {fn : String} {rb : Bool} {tr : Trace} {m : JVal} {t : Trace}
    (h : saveAsUpload env options pid fn rb tr = (.ok m, t)) :
    nineFieldsPresent m = true ∧ validateContentsModel m = .ok () := by
  unfold saveAsUpload at h
  repeat' (first
    | exact (pairErrOk h).elim
    | (obtain ⟨hc, hv, -⟩ := finishEmit_ok h
       exact ⟨convertToJupyterApi_present hc, hv⟩)
    | split at h)

/-- A successful saveNotebookAs returns a converted, validated model. -/
theorem saveNotebookAs_ok_fields {env : Env} {options : SaveOptions}
    {m : JVal} {t : Trace} (h : Drive.saveNotebookAs env options = (.ok m, t)) :
    nineFieldsPresent m = true ∧ validateContentsModel m = .ok () := by
  unfold Drive.saveNotebookAs at h
  split at h
  · split at h
    · exact (pairErrOk h).elim
    · exact saveAsUpload_ok_fields h
  · exact (pairErrOk h).elim

/-- A successful saveUpdate returns a converted, validated model. -/
theorem saveUpdate_ok_fields {env : Env} {options : SaveOptions}
    {localPath : String} {lkp : JVal} {tr : Trace} {m : JVal} {t : Trace}
    (h : saveUpdate env options localPath lkp tr = (.ok m, t)) :
    nineFieldsPresent m = true ∧ validateContentsModel m = .ok () := by
  unfold saveUpdate at h
  repeat' (first
    | exact (pairErrOk h).elim
    | (obtain ⟨hc, hv, -⟩ := finishEmitStrict_ok h
       exact ⟨convertToJupyterApi_present hc, hv⟩)
    | split at h)

/-- A successful save returns a converted, validated model (either through
the update path or through the saveNotebookAs fallback). -/
theorem save_ok_fields {env : Env} {localPath : String} {options : SaveOptions}
    {m : JVal} {t : Trace} (h : Drive.save env localPath options = (.ok m, t)) :
    nineFieldsPresent m = true ∧ validateContentsModel m = .ok () := by
  unfold Drive.save at h
  split at h
  · split at h
    · have h1 : (Drive.saveNotebookAs env options).1 = Except.ok m := congrArg Prod.fst h
      exact @saveNotebookAs_ok_fields env options m (Drive.saveNotebookAs env options).2 (by rw [← h1])
    · split at h
      · exact (pairErrOk h).elim
      · exact saveUpdate_ok_fields h
  · exact (pairErrOk h).elim

/-- Counting distributes over trace concatenation. -/
theorem countE_append (a b : Trace) (p : Effect → Bool) :
    countE (a ++ b) p = countE a p + countE b p :=
  List.countP_append p a b

/-- Counting a cons splits off the head. -/
theorem countE_cons (e : Effect) (l : Trace) (p : Effect → Bool) :
    countE (e :: l) p = (if p e then 1 else 0) + countE l p := by
  simp [countE, List.countP_cons, Nat.add_comm]

/-- The effects appended after a successful validation contribute nothing
when the classifier rejects them all. -/
theorem countE_finishEmit_snd (conv : Except DriveError JVal) (tr : Trace)
    (mk : JVal → Trace) (p : Effect → Bool) (hmk : ∀ m, countE (mk m) p = 0) :
    countE (finishEmit conv tr mk).2 p = countE tr p := by
  unfold finishEmit
  split
  · rfl
  · rw [countE_append, hmk]
    rfl

theorem countE_finishEmitStrict_snd (conv : Except DriveError JVal) (tr : Trace)
    (mk : JVal → Trace) (p : Effect → Bool) (hmk : ∀ m, countE (mk m) p = 0) :
    countE (finishEmitStrict conv tr mk).2 p = countE tr p := by
  unfold finishEmitStrict
  split
  · rfl
  · split
    · rfl
    · rw [countE_append, hmk]
      rfl

/-- Whatever the response, counting over a doRequest trace adds the issued
request to the preceding trace. -/
theorem countE_doRequest_snd (env : Env) (req : HttpRequest) (okSt : Nat → Bool)
    (tr : Trace) (p : Effect → Bool) :
    countE (doRequest env req okSt tr).2 p =
      countE tr p + countE [Effect.request req] p := by
  rw [doRequest_trace, countE_append]

/-- Membership survives finishEmit. -/
theorem mem_finishEmit {e : Effect} {tr : Trace} (conv : Except DriveError JVal)
    (mk : JVal → Trace) (he : e ∈ tr) : e ∈ (finishEmit conv tr mk).2 := by
  unfold finishEmit
  split
  · exact he
  · exact List.mem_append_left _ he

theorem mem_finishEmitStrict {e : Effect} {tr : Trace}
    (conv : Except DriveError JVal) (mk : JVal → Trace) (he : e ∈ tr) :
    e ∈ (finishEmitStrict conv tr mk).2 := by
  unfold finishEmitStrict
  split
  · exact he
  · split
    · exact he
    · exact List.mem_append_left _ he

/-- Membership survives a doRequest step. -/
theorem mem_doRequest {e : Effect} {tr : Trace} (env : Env) (req : HttpRequest)
    (okSt : Nat → Bool) (he : e ∈ tr ++ [Effect.request req]) :
    e ∈ (doRequest env req okSt tr).2 := by
  rw [doRequest_trace]
  exact he

/-- The resolution step of saveNotebookAs issues at most the parent
lookup. -/
theorem saveAsResolve_snd (env : Env) (p : String) :
    (saveAsResolve env p).2 = [] ∨
    (saveAsResolve env p).2 = [Effect.request (lookupReq (parentPathOf p))] := by
  unfold saveAsResolve
  split
  · left
    rfl
  · right
    split
    · rename_i e tr heq
      have h2 : (doRequest env (lookupReq (parentPathOf p)) ok200 []).2 = tr :=
        congrArg Prod.snd heq
      rw [← h2, doRequest_trace]
      rfl
    · rename_i plkp tr heq
      have h2 : (doRequest env (lookupReq (parentPathOf p)) ok200 []).2 = tr :=
        congrArg Prod.snd heq
      split
      · rw [← h2, doRequest_trace]
        rfl
      · split
        · rw [← h2, doRequest_trace]
          rfl
        · rw [← h2, doRequest_trace]
          rfl

/-- Counting over the upload step: the preceding trace plus the upload
request, provided the classifier ignores the emitted event and refresh. -/
theorem countE_saveAsUpload (env : Env) (o : SaveOptions) (pid : Option Int)
    (fn : String) (rb : Bool) (tr : Trace) (p : Effect → Bool)
    (hemit : ∀ m, p (.emit "new" JVal.jnull m) = false)
    (hre : p .refresh = false) :
    countE (saveAsUpload env o pid fn rb tr).2 p =
      countE tr p + countE [Effect.request (uploadReq (intOrNaN pid) fn o.content)] p := by
  unfold saveAsUpload
  have hmk : ∀ m, countE ([Effect.emit "new" JVal.jnull m] ++
      (if rb then [Effect.refresh] else [])) p = 0 := by
    intro m
    cases rb <;> simp [countE, List.countP_cons, List.countP_nil, hemit m, hre]
  split
  · rename_i e tr2 heq
    have h2 : (doRequest env (uploadReq (intOrNaN pid) fn o.content) created201 tr).2 = tr2 :=
      congrArg Prod.snd heq
    rw [← h2, countE_doRequest_snd]
  · rename_i data tr2 heq
    have h2 : (doRequest env (uploadReq (intOrNaN pid) fn o.content) created201 tr).2 = tr2 :=
      congrArg Prod.snd heq
    split
    · rw [← h2, countE_doRequest_snd]
    · split
      · rw [← h2, countE_doRequest_snd]
      · rw [countE_finishEmit_snd _ _ _ _ hmk, ← h2, countE_doRequest_snd]

/-- saveNotebookAs issues at most one lookup and one upload; a classifier
rejecting lookups, uploads, new events and refreshes counts nothing. -/
theorem saveNotebookAs_countE_zero (env : Env) (o : SaveOptions) (p : Effect → Bool)
    (hl : ∀ s, p (.request (lookupReq s)) = false)
    (hup : ∀ a b, p (.request (uploadReq a b o.content)) = false)
    (hemit : ∀ m, p (.emit "new" JVal.jnull m) = false)
    (hre : p .refresh = false) :
    countE (Drive.saveNotebookAs env o).2 p = 0 := by
  unfold Drive.saveNotebookAs
  split
  · rename_i q hq
    split
    · rename_i e tr heq
      have h2 : (saveAsResolve env q).2 = tr := congrArg Prod.snd heq
      rcases saveAsResolve_snd env q with h3 | h3 <;>
        rw [← h2, h3] <;>
        simp [countE, List.countP_cons, List.countP_nil, hl]
    · rename_i pid fn rb tr heq
      have h2 : (saveAsResolve env q).2 = tr := congrArg Prod.snd heq
      rw [countE_saveAsUpload env o pid fn rb tr p hemit hre]
      rcases saveAsResolve_snd env q with h3 | h3 <;>
        rw [← h2, h3] <;>
        simp [countE, List.countP_cons, List.countP_nil, hl, hup]
  · rfl

/-- Counting over the update step of save: the preceding trace plus the
single content PATCH, provided the classifier ignores the save event. -/
theorem countE_saveUpdate (env : Env) (o : SaveOptions) (localPath : String)
    (lkp : JVal) (tr : Trace) (p : Effect → Bool) (f : String)
    (hfid : lkp.jget "fid" = .jstr f)
    (hemit : ∀ m, p (.emit "save" JVal.jnull m) = false) :
    countE (saveUpdate env o localPath lkp tr).2 p =
      countE tr p + countE [Effect.request (notebookPatchReq f o.content)] p := by
  unfold saveUpdate
  rw [hfid]
  dsimp only
  have hmk : ∀ m, countE [Effect.emit "save" JVal.jnull m] p = 0 := by
    intro m
    simp [countE, List.countP_cons, List.countP_nil, hemit m]
  split
  · rename_i e tr2 heq
    have h2 : (doRequest env (notebookPatchReq f o.content) ok200or201 tr).2 = tr2 :=
      congrArg Prod.snd heq
    rw [← h2, countE_doRequest_snd]
  · rename_i data tr2 heq
    have h2 : (doRequest env (notebookPatchReq f o.content) ok200or201 tr).2 = tr2 :=
      congrArg Prod.snd heq
    split
    · rw [← h2, countE_doRequest_snd]
    · rw [countE_finishEmitStrict_snd _ _ _ _ hmk, ← h2, countE_doRequest_snd]

/-- The update step always issues its content PATCH. -/
theorem saveUpdate_patch_mem (env : Env) (o : SaveOptions) (localPath : String)
    (lkp : JVal) (tr : Trace) (f : String) (hfid : lkp.jget "fid" = .jstr f) :
    Effect.request (notebookPatchReq f o.content) ∈ (saveUpdate env o localPath lkp tr).2 := by
  unfold saveUpdate
  rw [hfid]
  dsimp only
  have hm : ∀ tr2 : Trace,
      (doRequest env (notebookPatchReq f o.content) ok200or201 tr).2 = tr2 →
      Effect.request (notebookPatchReq f o.content) ∈ tr2 := by
    intro tr2 h2
    rw [← h2, doRequest_trace]
    exact List.mem_append_right _ (by simp)
  split
  · rename_i e tr2 heq
    exact hm tr2 (congrArg Prod.snd heq)
  · rename_i data tr2 heq
    split
    · exact hm tr2 (congrArg Prod.snd heq)
    · exact mem_finishEmitStrict _ _ (hm tr2 (congrArg Prod.snd heq))

/-- Counting over the PATCH step of rename: the preceding trace plus the
single files PATCH, provided the classifier ignores the rename event and
the refresh. -/
theorem countE_renamePatch (env : Env) (fileLookup npid : JVal)
    (oldP newP : String) (tr : Trace) (p : Effect → Bool) (f : String)
    (hfid : fileLookup.jget "fid" = .jstr f)
    (hemit : p (.emit "rename" (.jobj [("path", .jstr oldP)])
      (.jobj [("path", .jstr newP)])) = false)
    (hre : p .refresh = false) :
    countE (renamePatch env fileLookup npid oldP newP tr).2 p =
      countE tr p + countE [Effect.request (filesPatchReq f (.jobj [
        ("filename", .jstr (leafOf newP)), ("parent", npid), ("fid", .jstr f)]))] p := by
  unfold renamePatch
  rw [hfid]
  dsimp only
  have hmk : ∀ m : JVal, countE [Effect.emit "rename" (JVal.jobj [("path", JVal.jstr oldP)])
      (JVal.jobj [("path", JVal.jstr newP)]), Effect.refresh] p = 0 := by
    intro m
    simp [countE, List.countP_cons, List.countP_nil, hemit, hre]
  split
  · rename_i e tr3 heq
    have h2 : (doRequest env (filesPatchReq f (.jobj [("filename", .jstr (leafOf newP)),
        ("parent", npid), ("fid", .jstr f)])) ok200 tr).2 = tr3 := congrArg Prod.snd heq
    rw [← h2, countE_doRequest_snd]
  · rename_i data tr3 heq
    have h2 : (doRequest env (filesPatchReq f (.jobj [("filename", .jstr (leafOf newP)),
        ("parent", npid), ("fid", .jstr f)])) ok200 tr).2 = tr3 := congrArg Prod.snd heq
    split
    · rw [← h2, countE_doRequest_snd]
    · rw [countE_finishEmit_snd _ _ _ _ hmk, ← h2, countE_doRequest_snd]

/-- The PATCH step of rename always issues its files PATCH. -/
theorem renamePatch_req_mem (env : Env) (fileLookup npid : JVal)
    (oldP newP : String) (tr : Trace) (f : String)
    (hfid : fileLookup.jget "fid" = .jstr f) :
    Effect.request (filesPatchReq f (.jobj [("filename", .jstr (leafOf newP)),
      ("parent", npid), ("fid", .jstr f)])) ∈
      (renamePatch env fileLookup npid oldP newP tr).2 := by
  unfold renamePatch
  rw [hfid]
  dsimp only
  have hm : ∀ tr3 : Trace,
      (doRequest env (filesPatchReq f (.jobj [("filename", .jstr (leafOf newP)),
        ("parent", npid), ("fid", .jstr f)])) ok200 tr).2 = tr3 →
      Effect.request (filesPatchReq f (.jobj [("filename", .jstr (leafOf newP)),
        ("parent", npid), ("fid", .jstr f)])) ∈ tr3 := by
    intro tr3 h2
    rw [← h2, doRequest_trace]
    exact List.mem_append_right _ (by simp)
  split
  · rename_i e tr3 heq
    exact hm tr3 (congrArg Prod.snd heq)
  · rename_i data tr3 heq
    split
    · exact hm tr3 (congrArg Prod.snd heq)
    · exact mem_finishEmit _ _ (hm tr3 (congrArg Prod.snd heq))

/-- Membership in the preceding trace or the issued PATCH survives the
whole PATCH step of rename. -/
theorem renamePatch_mem {e : Effect} (env : Env) (fileLookup npid : JVal)
    (oldP newP : String) (tr : Trace) (f : String)
    (hfid : fileLookup.jget "fid" = .jstr f)
    (he : e ∈ tr ++ [Effect.request (filesPatchReq f (.jobj [
      ("filename", .jstr (leafOf newP)), ("parent", npid), ("fid", .jstr f)]))]) :
    e ∈ (renamePatch env fileLookup npid oldP newP tr).2 := by
  unfold renamePatch
  rw [hfid]
  dsimp only
  have hm : ∀ tr3 : Trace,
      (doRequest env (filesPatchReq f (.jobj [("filename", .jstr (leafOf newP)),
        ("parent", npid), ("fid", .jstr f)])) ok200 tr).2 = tr3 → e ∈ tr3 := by
    intro tr3 h2
    rw [← h2, doRequest_trace]
    exact he
  split
  · rename_i e2 tr3 heq
    exact hm tr3 (congrArg Prod.snd heq)
  · rename_i data tr3 heq
    split
    · exact hm tr3 (congrArg Prod.snd heq)
    · exact mem_finishEmit _ _ (hm tr3 (congrArg Prod.snd heq))

/-- Counting over the creation step of newUntitled: the preceding trace
plus the single creation request. -/
theorem countE_newCommon (env : Env) (o : NewOptions) (req : HttpRequest)
    (rb : Bool) (tr : Trace) (p : Effect → Bool)
    (hemit : ∀ m, p (.emit "new" JVal.jnull m) = false)
    (hre : p .refresh = false) :
    countE (Drive.newCommon env o req rb tr).2 p =
      countE tr p + countE [Effect.request req] p := by
  unfold Drive.newCommon
  have hmk : ∀ m, countE ([Effect.emit "new" JVal.jnull m] ++
      (if rb then [Effect.refresh] else [])) p = 0 := by
    intro m
    cases rb <;> simp [countE, List.countP_cons, List.countP_nil, hemit m, hre]
  split
  · rename_i e tr2 heq
    have h2 : (doRequest env req created201 tr).2 = tr2 := congrArg Prod.snd heq
    rw [← h2, countE_doRequest_snd]
  · rename_i data tr2 heq
    have h2 : (doRequest env req created201 tr).2 = tr2 := congrArg Prod.snd heq
    split
    · rw [← h2, countE_doRequest_snd]
    · split
      · rw [← h2, countE_doRequest_snd]
      · rw [countE_finishEmit_snd _ _ _ _ hmk, ← h2, countE_doRequest_snd]

/-- Membership in the preceding trace or the creation request survives the
creation step of newUntitled. -/
theorem newCommon_mem {e : Effect} (env : Env) (o : NewOptions) (req : HttpRequest)
    (rb : Bool) (tr : Trace) (he : e ∈ tr ++ [Effect.request req]) :
    e ∈ (Drive.newCommon env o req rb tr).2 := by
  unfold Drive.newCommon
  have hm : ∀ tr2 : Trace, (doRequest env req created201 tr).2 = tr2 → e ∈ tr2 := by
    intro tr2 h2
    rw [← h2, doRequest_trace]
    exact he
  split
  · rename_i e2 tr2 heq
    exact hm tr2 (congrArg Prod.snd heq)
  · rename_i data tr2 heq
    split
    · exact hm tr2 (congrArg Prod.snd heq)
    · split
      · exact hm tr2 (congrArg Prod.snd heq)
      · exact mem_finishEmit _ _ (hm tr2 (congrArg Prod.snd heq))

/-- A successful conversion pins the name, path and type fields. -/
theorem convertToJupyterApi_fields {d ty n p c l m : JVal}
    (h : convertToJupyterApi d ty n p c l = .ok m) :
    m.jget "name" = n ∧ m.jget "path" = p ∧ m.jget "type" = ty := by
  unfold convertToJupyterApi at h
  dsimp only at h
  split at h
  · exact Except.noConfusion h
  · have h2 := Except.ok.inj h
    subst h2
    exact ⟨rfl, rfl, rfl⟩

/-- A successful newCommon pins the model path to the join of the supplied
parent path with the server-confirmed filename, and pins the trace. -/
theorem newCommon_ok_props {env : Env} {o : NewOptions} {req : HttpRequest}
    {rb : Bool} {tr : Trace} {m : JVal} {t : Trace}
    (h : Drive.newCommon env o req rb tr = (.ok m, t)) :
    m.jget "path" = pathJoinJS o.path (m.jget "name") ∧
    t = tr ++ [Effect.request req] ++ Effect.emit "new" JVal.jnull m ::
      (if rb then [Effect.refresh] else []) := by
  unfold Drive.newCommon at h
  split at h
  · exact (pairErrOk h).elim
  · rename_i data tr2 heq
    split at h
    · exact (pairErrOk h).elim
    · split at h
      · exact (pairErrOk h).elim
      · obtain ⟨hc, hv, htr⟩ := finishEmit_ok h
        obtain ⟨hname, hpath, -⟩ := convertToJupyterApi_fields hc
        constructor
        · rw [hpath, hname]
        · rw [htr]
          have h2 : (doRequest env req created201 tr).2 = tr2 := congrArg Prod.snd heq
          rw [← h2, doRequest_trace]
          rfl

/-- Reading errors of a nullish body yields no message. -/
theorem chainMsg_undef_of_nullish {d : JVal} (h : d.nullish = true) :
    chainMsg d = .jundefined := by
  cases d <;> first
    | rfl
    | simp [JVal.nullish] at h

/-- ResponseError.create preserves the HTTP status. -/
theorem create_status (r : Response) : (ResponseError.create r).status = r.status := by
  unfold ResponseError.create
  split
  · rfl
  · dsimp only
    split
    · rfl
    · split
      · rfl
      · rfl

/-- When the body holds a string at errors[0].message, that string is the
error message. -/
theorem create_msg_str {r : Response} {data : JVal} {s : String}
    (hj : r.json = some data) (hm : chainMsg data = .jstr s) :
    (ResponseError.create r).message = s := by
  unfold ResponseError.create
  rw [hj]
  dsimp only
  by_cases hd : data.nullish = true
  · rw [chainMsg_undef_of_nullish hd] at hm
    exact JVal.noConfusion hm
  · rw [if_neg hd, hm]
    rfl

/-- An unparseable body yields the default message. -/
theorem create_msg_none {r : Response} (hj : r.json = none) :
    (ResponseError.create r).message = ResponseError.defaultMessage r := by
  unfold ResponseError.create
  rw [hj]

/-- A parsed body without errors[0].message yields the default message. -/
theorem create_msg_undef {r : Response} {data : JVal}
    (hj : r.json = some data) (hm : chainMsg data = .jundefined) :
    (ResponseError.create r).message = ResponseError.defaultMessage r := by
  unfold ResponseError.create
  rw [hj]
  dsimp only
  by_cases hd : data.nullish = true
  · rw [if_pos hd]
  · rw [if_neg hd, hm]
    rfl

/-- C1, counterexample: validateContentsModel accepts a model carrying the
eight checked fields but no writable field, so it does not assert the
presence of all nine required fields. -/
theorem claim1_counterexample :
    validateContentsModel modelNoWritable = .ok () ∧
    hasOwnB modelNoWritable "writable" = false :=
  ⟨rfl, rfl⟩

/-- C1, amended: validateContentsModel asserts the presence and coarse type
of eight of the nine required fields of the response model (writable is
never validated) and throws when any of the eight is missing or mistyped;
every model successfully returned by get, newUntitled, rename, save or
saveNotebookAs nevertheless carries all nine required fields, because the
converter constructs it with writable set to true and the validator has
accepted the other eight. -/
theorem claim1_eight_field_validation :
    (∀ m : JVal, validateContentsModel m = .ok () ↔ eightOK m = true) ∧
    (∀ (env : Env) (p : String) (m : JVal) (t : Trace),
      Drive.get env p = (.ok m, t) → nineFieldsPresent m = true ∧ eightOK m = true) ∧
    (∀ (env : Env) (o : NewOptions) (m : JVal) (t : Trace),
      Drive.newUntitled env o = (.ok m, t) → nineFieldsPresent m = true ∧ eightOK m = true) ∧
    (∀ (env : Env) (a b : String) (m : JVal) (t : Trace),
      Drive.rename env a b = (.ok m, t) → nineFieldsPresent m = true ∧ eightOK m = true) ∧
    (∀ (env : Env) (p : String) (o : SaveOptions) (m : JVal) (t : Trace),
      Drive.save env p o = (.ok m, t) → nineFieldsPresent m = true ∧ eightOK m = true) ∧
    (∀ (env : Env) (o : SaveOptions) (m : JVal) (t : Trace),
      Drive.saveNotebookAs env o = (.ok m, t) → nineFieldsPresent m = true ∧ eightOK m = true) := by
  refine ⟨validateContentsModel_ok_iff, ?_, ?_, ?_, ?_, ?_⟩
  · intro env p m t h
    obtain ⟨h9, hv⟩ := get_ok_fields h
    exact ⟨h9, (validateContentsModel_ok_iff m).mp hv⟩
  · intro env o m t h
    obtain ⟨h9, hv⟩ := newUntitled_ok_fields h
    exact ⟨h9, (validateContentsModel_ok_iff m).mp hv⟩
  · intro env a b m t h
    obtain ⟨h9, hv⟩ := rename_ok_fields h
    exact ⟨h9, (validateContentsModel_ok_iff m).mp hv⟩
  · intro env p o m t h
    obtain ⟨h9, hv⟩ := save_ok_fields h
    exact ⟨h9, (validateContentsModel_ok_iff m).mp hv⟩
  · intro env o m t h
    obtain ⟨h9, hv⟩ := saveNotebookAs_ok_fields h
    exact ⟨h9, (validateContentsModel_ok_iff m).mp hv⟩

/-- C1, witness: a concrete successful save returns a model carrying all
nine required fields with the eight checked ones well typed. -/
theorem claim1_witness :
    Drive.save envSaveUpdate "n.ipynb" saveOptsW = (.ok mSaveW, resSaveW.2) ∧
    nineFieldsPresent mSaveW = true ∧ eightOK mSaveW = true :=
  ⟨rfl, claim1_eight_field_validation.2.2.2.2.1 envSaveUpdate "n.ipynb" saveOptsW
    mSaveW resSaveW.2 rfl⟩

/-- C8: opening a non-empty path whose lookup resolves a filetype that is
neither fold nor jupyter_notebook fails with the plain unsupported-type
Error (only notebooks and folders can be opened), an error distinct by
construction from a remote non-2xx ResponseError and from a transport
NetworkError, and issues no request beyond the single lookup. -/
theorem claim8_unsupported_type (env : Env) (p : String) (r : Response) (lkp : JVal)
    (hp : p ≠ "") (hresp : env.respond (lookupReq p) = .resp r)
    (hst : r.status = 200) (hjson : r.json = some lkp)
    (hnn : lkp.nullish = false)
    (hft1 : isStrEq (lkp.jget "filetype") "fold" = false)
    (hft2 : isStrEq (lkp.jget "filetype") "jupyter_notebook" = false) :
    Drive.get env p =
      (.error (.jsError "Currently you can only open notebooks and folders!"),
       [Effect.request (lookupReq p)]) ∧
    countE (Drive.get env p).2 isRequestE = 1 ∧
    (∀ e : ResponseError,
      DriveError.jsError "Currently you can only open notebooks and folders!" ≠
        DriveError.response e) ∧
    (∀ s : String,
      DriveError.jsError "Currently you can only open notebooks and folders!" ≠
        DriveError.network s) := by
  have hmain : Drive.get env p =
      (.error (.jsError "Currently you can only open notebooks and folders!"),
       [Effect.request (lookupReq p)]) := by
    unfold Drive.get
    rw [if_pos hp]
    rw [doRequest_ok [] hresp (by rw [hst]; rfl) hjson]
    dsimp only
    rw [if_neg (by simp [hnn]), if_neg (by simp [hft1]), if_neg (by simp [hft2])]
    rfl
  refine ⟨hmain, ?_, ?_, ?_⟩
  · rw [hmain]
    rfl
  · intro e h
    exact DriveError.noConfusion h
  · intro s h
    exact DriveError.noConfusion h

/-- C8, witness: opening a grid fails with the unsupported-type error after
the single lookup. -/
theorem claim8_witness :
    Drive.get envGridW "G" =
      (.error (.jsError "Currently you can only open notebooks and folders!"),
       [Effect.request (lookupReq "G")]) ∧
    countE (Drive.get envGridW "G").2 isRequestE = 1 :=
  ⟨(claim8_unsupported_type envGridW "G" ⟨200, "OK", some (lkpData "42:9" "grid" "G" 3)⟩
      (lkpData "42:9" "grid" "G" 3) (by decide) rfl rfl rfl rfl rfl rfl).1,
   (claim8_unsupported_type envGridW "G" ⟨200, "OK", some (lkpData "42:9" "grid" "G" 3)⟩
      (lkpData "42:9" "grid" "G" 3) (by decide) rfl rfl rfl rfl rfl rfl).2.1⟩

/-- C9: a non-2xx response to a lookup makes the adapter reject with the
wrapped ResponseError carrying the HTTP status; when the body parses as
JSON containing a string errors[0].message that string is the message, and
otherwise (unparseable body, or no such field) the message is the generic
Invalid response form. -/
theorem claim9_response_error (env : Env) (p : String) (r : Response)
    (hresp : env.respond (lookupReq p) = .resp r)
    (hn : ¬(200 ≤ r.status ∧ r.status < 300)) :
    Drive.lookup env p =
      (.error (.response (ResponseError.create r)), [Effect.request (lookupReq p)]) ∧
    (ResponseError.create r).status = r.status ∧
    (∀ (data : JVal) (s : String), r.json = some data → chainMsg data = .jstr s →
      (ResponseError.create r).message = s) ∧
    (r.json = none →
      (ResponseError.create r).message = ResponseError.defaultMessage r) ∧
    (∀ data : JVal, r.json = some data → chainMsg data = .jundefined →
      (ResponseError.create r).message = ResponseError.defaultMessage r) := by
  have hne : r.status ≠ 200 := by
    intro he
    exact hn ⟨by omega, by omega⟩
  have hok : ok200 r.status = false := by
    simp [ok200, hne]
  refine ⟨?_, create_status r, ?_, ?_, ?_⟩
  · unfold Drive.lookup
    exact doRequest_err [] hresp hok
  · intro data s hj hm
    exact create_msg_str hj hm
  · intro hj
    exact create_msg_none hj
  · intro data hj hm
    exact create_msg_undef hj hm

/-- C9, witness: a 404 with a server-supplied message rejects the lookup
with that message and status 404. -/
theorem claim9_witness :
    Drive.lookup env404W "x" =
      (.error (.response (ResponseError.create resp404W)), [Effect.request (lookupReq "x")]) ∧
    (ResponseError.create resp404W).status = 404 ∧
    (ResponseError.create resp404W).message = "Resource not found" := by
  have h := claim9_response_error env404W "x" resp404W rfl (by decide)
  exact ⟨h.1, h.2.1, h.2.2.1 _ "Resource not found" rfl rfl⟩

/-- C10: save with an absent or empty options.path performs no lookup at
all, never invokes the saveNotebookAs fallback, and rejects with the
TypeError of the null dereference while building the update URL, before
any remote request is issued and before any fileChanged event is
emitted. -/
theorem claim10_save_falsy_path (env : Env) (localPath : String) (o : SaveOptions)
    (hf : o.path.truthy = false) :
    Drive.save env localPath o =
      (.error (.typeError "Cannot read properties of null (reading fid)"), []) ∧
    countE (Drive.save env localPath o).2 isRequestE = 0 ∧
    countE (Drive.save env localPath o).2 isSaveAsE = 0 ∧
    (∀ (ty : String) (ov nv : JVal),
      Effect.emit ty ov nv ∉ (Drive.save env localPath o).2) := by
  have hmain : Drive.save env localPath o =
      (.error (.typeError "Cannot read properties of null (reading fid)"), []) := by
    unfold Drive.save
    rw [if_neg (by rw [hf]; exact Bool.false_ne_true)]
  refine ⟨hmain, ?_, ?_, ?_⟩
  · rw [hmain]
    rfl
  · rw [hmain]
    rfl
  · intro ty ov nv
    rw [hmain]
    simp

/-- C10, witness: a concrete save without a path rejects with the TypeError
and an empty trace. -/
theorem claim10_witness :
    saveOptsNoPath.path.truthy = false ∧
    Drive.save envSaveUpdate "n.ipynb" saveOptsNoPath =
      (.error (.typeError "Cannot read properties of null (reading fid)"), []) :=
  ⟨rfl, (claim10_save_falsy_path envSaveUpdate "n.ipynb" saveOptsNoPath rfl).1⟩

/-- C2: for every save whose options.path is truthy, a failed lookup makes
save delegate to saveNotebookAs exactly once, with the delegation result
and trace, and no update PATCH is ever issued on that path; a successful
lookup (with a string fid, as the remote supplies) makes save issue the
update PATCH against the notebook content sub-resource exactly once, with
no delegation and no create upload. -/
theorem claim2_save_create_or_update (env : Env) (localPath : String)
    (o : SaveOptions) (ht : o.path.truthy = true) :
    (∀ e : DriveError,
      (Drive.lookup env (jsToString o.path)).1 = .error e →
      Drive.save env localPath o =
        ((Drive.saveNotebookAs env o).1,
         (Drive.lookup env (jsToString o.path)).2 ++
           Effect.saveAsCall :: (Drive.saveNotebookAs env o).2) ∧
      countE (Drive.save env localPath o).2 isSaveAsE = 1 ∧
      countE (Drive.save env localPath o).2 isNbPatchE = 0) ∧
    (∀ (lkp : JVal) (f : String),
      (Drive.lookup env (jsToString o.path)).1 = .ok lkp →
      lkp.nullish = false → lkp.jget "fid" = .jstr f →
      countE (Drive.save env localPath o).2 isNbPatchE = 1 ∧
      countE (Drive.save env localPath o).2 isSaveAsE = 0 ∧
      countE (Drive.save env localPath o).2 isUploadE = 0 ∧
      Effect.request (notebookPatchReq f o.content) ∈ (Drive.save env localPath o).2) := by
  have hltr : (Drive.lookup env (jsToString o.path)).2 =
      [Effect.request (lookupReq (jsToString o.path))] := by
    unfold Drive.lookup
    rw [doRequest_trace]
    rfl
  constructor
  · intro e he
    have hpair : Drive.lookup env (jsToString o.path) =
        (.error e, (Drive.lookup env (jsToString o.path)).2) := by
      rw [← he]
    have hmain : Drive.save env localPath o =
        ((Drive.saveNotebookAs env o).1,
         (Drive.lookup env (jsToString o.path)).2 ++
           Effect.saveAsCall :: (Drive.saveNotebookAs env o).2) := by
      unfold Drive.save
      rw [if_pos ht, hpair]
    have hz1 : countE (Drive.saveNotebookAs env o).2 isSaveAsE = 0 :=
      saveNotebookAs_countE_zero env o isSaveAsE (fun s => rfl) (fun a b => rfl)
        (fun m => rfl) rfl
    have hz2 : countE (Drive.saveNotebookAs env o).2 isNbPatchE = 0 :=
      saveNotebookAs_countE_zero env o isNbPatchE (fun s => rfl) (fun a b => rfl)
        (fun m => rfl) rfl
    refine ⟨hmain, ?_, ?_⟩
    · rw [hmain]
      dsimp only
      rw [hltr, countE_append, countE_cons, countE_cons, hz1]
      rfl
    · rw [hmain]
      dsimp only
      rw [hltr, countE_append, countE_cons, countE_cons, hz2]
      rfl
  · intro lkp f hok hnn hfid
    have hpair : Drive.lookup env (jsToString o.path) =
        (.ok lkp, (Drive.lookup env (jsToString o.path)).2) := by
      rw [← hok]
    have hmain : Drive.save env localPath o =
        saveUpdate env o localPath lkp (Drive.lookup env (jsToString o.path)).2 := by
      unfold Drive.save
      rw [if_pos ht, hpair]
      dsimp only
      rw [if_neg (by simp [hnn])]
    refine ⟨?_, ?_, ?_, ?_⟩
    · rw [hmain, countE_saveUpdate env o localPath lkp _ isNbPatchE f hfid (fun m => rfl), hltr]
      rfl
    · rw [hmain, countE_saveUpdate env o localPath lkp _ isSaveAsE f hfid (fun m => rfl), hltr]
      rfl
    · rw [hmain, countE_saveUpdate env o localPath lkp _ isUploadE f hfid (fun m => rfl), hltr]
      rfl
    · rw [hmain]
      exact saveUpdate_patch_mem env o localPath lkp _ f hfid

/-- C2, witness: a failed concrete lookup delegates to saveNotebookAs with
no update PATCH, and a successful concrete lookup issues the update PATCH
exactly once with no delegation. -/
theorem claim2_witness :
    (countE (Drive.save envSaveFallback "n.ipynb" saveOptsW).2 isSaveAsE = 1 ∧
     countE (Drive.save envSaveFallback "n.ipynb" saveOptsW).2 isNbPatchE = 0) ∧
    (countE (Drive.save envSaveUpdate "n.ipynb" saveOptsW).2 isNbPatchE = 1 ∧
     countE (Drive.save envSaveUpdate "n.ipynb" saveOptsW).2 isSaveAsE = 0) := by
  have hA := (claim2_save_create_or_update envSaveFallback "n.ipynb" saveOptsW rfl).1
    (.response (ResponseError.create ⟨404, "Not Found",
      some (.jobj [("errors", .jarr [.jobj [("message", .jstr "Resource not found")]])])⟩)) rfl
  have hB := (claim2_save_create_or_update envSaveUpdate "n.ipynb" saveOptsW rfl).2
    (lkpData "42:3" "jupyter_notebook" "n.ipynb" (-1)) "42:3" rfl rfl rfl
  exact ⟨⟨hA.2.1, hA.2.2⟩, ⟨hB.1, hB.2.1⟩⟩

/-- C7: delete resolves the resource through one lookup, issues the trash
POST, emits a delete change event, and triggers a browser refresh exactly
when the parent of the deleted item is the number -1 (strict equality);
deleting a non-root resource triggers no refresh. -/
theorem claim7_delete_refresh (env : Env) (p : String) (r r2 : Response)
    (lkp : JVal) (f : String)
    (hresp : env.respond (lookupReq p) = .resp r) (hst : r.status = 200)
    (hjson : r.json = some lkp) (hnn : lkp.nullish = false)
    (hfid : lkp.jget "fid" = .jstr f)
    (hresp2 : env.respond (trashReq f) = .resp r2) (hst2 : r2.status = 200) :
    Drive.delete env p = (.ok .jundefined,
      [Effect.request (lookupReq p), Effect.request (trashReq f),
       Effect.emit "delete" (.jobj [("path", .jstr p)]) .jnull] ++
      (if isNumEq (lkp.jget "parent") (-1) then [Effect.refresh] else [])) ∧
    countE (Drive.delete env p).2 isRefreshE =
      (if isNumEq (lkp.jget "parent") (-1) then 1 else 0) ∧
    countE (Drive.delete env p).2 isLookupE = 1 ∧
    countE (Drive.delete env p).2 (isEmitE "delete") = 1 := by
  have hmain : Drive.delete env p = (.ok .jundefined,
      [Effect.request (lookupReq p), Effect.request (trashReq f),
       Effect.emit "delete" (.jobj [("path", .jstr p)]) .jnull] ++
      (if isNumEq (lkp.jget "parent") (-1) then [Effect.refresh] else [])) := by
    unfold Drive.delete
    rw [doRequest_ok [] hresp (by rw [hst]; rfl) hjson]
    dsimp only
    rw [if_neg (by simp [hnn]), hfid]
    dsimp only
    rw [doRequestUnit_ok _ hresp2 (by rw [hst2]; rfl)]
    dsimp only
    cases hpar : isNumEq (lkp.jget "parent") (-1) <;> simp [hpar]
  refine ⟨hmain, ?_, ?_, ?_⟩ <;> rw [hmain] <;>
    cases hpar : isNumEq (lkp.jget "parent") (-1) <;> simp [hpar] <;> rfl

/-- C7, witness: deleting a concrete root-level resource (parent -1)
refreshes the browser exactly once. -/
theorem claim7_witness :
    Drive.delete envDeleteW "p" = (.ok .jundefined,
      [Effect.request (lookupReq "p"), Effect.request (trashReq "42:3"),
       Effect.emit "delete" (.jobj [("path", .jstr "p")]) .jnull, Effect.refresh]) ∧
    countE (Drive.delete envDeleteW "p").2 isRefreshE = 1 := by
  have h := claim7_delete_refresh envDeleteW "p" ⟨200, "OK", some (lkpData "42:3" "plot" "p" (-1))⟩
    ⟨200, "OK", none⟩ (lkpData "42:3" "plot" "p" (-1)) "42:3" rfl rfl rfl rfl rfl rfl rfl
  exact ⟨h.1, h.2.1⟩

/-- C4, counterexample: a successful creation of a directory at the root
emits no browser refresh, so the refresh is not triggered for items of
either type created at the root. -/
theorem claim4_counterexample :
    Drive.newUntitled envNewDirRoot optsDirRoot = (.ok mDirRoot, resDirRoot.2) ∧
    isStrEq optsDirRoot.type "directory" = true ∧
    optsDirRoot.path.truthy = false ∧
    countE resDirRoot.2 isRefreshE = 0 :=
  ⟨rfl, rfl, rfl, rfl⟩

/-- C4, amended: every successful newUntitled call computes the returned
model path from the server-confirmed filename joined to the supplied
parent path and emits exactly one new change event; the explicit
file-browser refresh is triggered exactly when a notebook is created at
the root — directory creations never trigger it. -/
theorem claim4_new_path_emit_refresh (env : Env) (o : NewOptions) (m : JVal)
    (t : Trace) (h : Drive.newUntitled env o = (.ok m, t)) :
    countE t (isEmitE "new") = 1 ∧
    countE t isRefreshE =
      (if isStrEq o.type "notebook" && !o.path.truthy then 1 else 0) ∧
    m.jget "path" = pathJoinJS o.path (m.jget "name") := by
  unfold Drive.newUntitled at h
  split at h
  · rename_i hnb
    split at h
    · rename_i hpath
      split at h
      · exact (pairErrOk h).elim
      · rename_i plkp tr heq
        split at h
        · exact (pairErrOk h).elim
        · split at h
          · obtain ⟨hpj, htr⟩ := newCommon_ok_props h
            have h2 : (doRequest env (lookupReq (jsToString o.path)) ok200 []).2 = tr :=
              congrArg Prod.snd heq
            rw [doRequest_trace] at h2
            subst htr
            rw [← h2]
            refine ⟨rfl, ?_, hpj⟩
            rw [hnb, hpath]
            rfl
          · exact (pairErrOk h).elim
    · rename_i hpath
      obtain ⟨hpj, htr⟩ := newCommon_ok_props h
      subst htr
      refine ⟨rfl, ?_, hpj⟩
      rw [hnb, Bool.eq_false_iff.mpr hpath]
      rfl
  · rename_i hnb
    split at h
    · rename_i hdir
      split at h
      · rename_i hpath
        split at h
        · exact (pairErrOk h).elim
        · rename_i lkp tr heq
          split at h
          · exact (pairErrOk h).elim
          · split at h
            · obtain ⟨hpj, htr⟩ := newCommon_ok_props h
              have h2 : (doRequest env (lookupReq (jsToString o.path)) ok200 []).2 = tr :=
                congrArg Prod.snd heq
              rw [doRequest_trace] at h2
              subst htr
              rw [← h2]
              refine ⟨rfl, ?_, hpj⟩
              rw [Bool.eq_false_iff.mpr hnb]
              rfl
            · exact (pairErrOk h).elim
      · obtain ⟨hpj, htr⟩ := newCommon_ok_props h
        subst htr
        refine ⟨rfl, ?_, hpj⟩
        rw [Bool.eq_false_iff.mpr hnb]
        rfl
    · obtain ⟨hpj, htr⟩ := newCommon_ok_props h
      subst htr
      refine ⟨rfl, ?_, hpj⟩
      rw [Bool.eq_false_iff.mpr hnb]
      rfl

/-- C4, witness: a concrete root-level notebook creation emits one new
event, one refresh, and returns a model whose path is the
server-confirmed filename. -/
theorem claim4_witness :
    Drive.newUntitled envNewNbRoot optsNbRoot = (.ok mNbRoot, resNbRoot.2) ∧
    countE resNbRoot.2 (isEmitE "new") = 1 ∧
    countE resNbRoot.2 isRefreshE = 1 ∧
    mNbRoot.jget "path" = pathJoinJS optsNbRoot.path (mNbRoot.jget "name") := by
  have h := claim4_new_path_emit_refresh envNewNbRoot optsNbRoot mNbRoot resNbRoot.2 rfl
  exact ⟨rfl, h.1, h.2.1, h.2.2⟩

/-- C5, counterexample: creating a directory under folder A (fid 42:7)
sends the folder-creation body with parent as the string "7", not as the
number 7, so the parent id is not resolved the same way as for notebooks
(which parseInt the local fid part). -/
theorem claim5_counterexample :
    resDirSub.2 = [Effect.request (lookupReq "A"),
      Effect.request (folderCreateReq (.jstr "7")),
      Effect.emit "new" .jnull mDirSub] ∧
    JVal.jstr "7" ≠ JVal.jnum 7 :=
  ⟨rfl, fun h => JVal.noConfusion h⟩

/-- C5, amended: newUntitled for a directory with no path uses parent id
-1 and triggers exactly one creation call with no lookup; with a path it
first issues exactly one lookup of that path and uses the string local
part of the parent fid (fid.split at the colon, index 1, taken verbatim
and not parseInt-converted as in the notebook branch) as the parent value
of the folder-creation request body. -/
theorem claim5_directory_parent :
    (∀ (env : Env) (o : NewOptions),
      o.type = .jstr "directory" → o.path.truthy = false →
      countE (Drive.newUntitled env o).2 isFolderPostE = 1 ∧
      countE (Drive.newUntitled env o).2 isLookupE = 0 ∧
      Effect.request (folderCreateReq (.jnum (-1))) ∈ (Drive.newUntitled env o).2) ∧
    (∀ (env : Env) (o : NewOptions) (r : Response) (lkp : JVal) (f s : String),
      o.type = .jstr "directory" → o.path.truthy = true →
      env.respond (lookupReq (jsToString o.path)) = .resp r →
      r.status = 200 → r.json = some lkp → lkp.nullish = false →
      lkp.jget "fid" = .jstr f → localIdOf f = some s →
      countE (Drive.newUntitled env o).2 isLookupE = 1 ∧
      countE (Drive.newUntitled env o).2 isFolderPostE = 1 ∧
      Effect.request (lookupReq (jsToString o.path)) ∈ (Drive.newUntitled env o).2 ∧
      Effect.request (folderCreateReq (.jstr s)) ∈ (Drive.newUntitled env o).2) := by
  constructor
  · intro env o hty hpf
    have hmain : Drive.newUntitled env o =
        Drive.newCommon env o (folderCreateReq (.jnum (-1))) false [] := by
      unfold Drive.newUntitled
      rw [if_neg (by rw [hty]; decide), if_pos (by rw [hty]; decide),
        if_neg (by rw [hpf]; exact Bool.false_ne_true)]
    refine ⟨?_, ?_, ?_⟩
    · rw [hmain, countE_newCommon env o _ false [] isFolderPostE (fun m => rfl) rfl]
      rfl
    · rw [hmain, countE_newCommon env o _ false [] isLookupE (fun m => rfl) rfl]
      rfl
    · rw [hmain]
      exact newCommon_mem env o _ false [] (by simp)
  · intro env o r lkp f s hty hpt hresp hst hjson hnn hfid hloc
    have hmain : Drive.newUntitled env o =
        Drive.newCommon env o (folderCreateReq (.jstr s)) false
          ([] ++ [Effect.request (lookupReq (jsToString o.path))]) := by
      unfold Drive.newUntitled
      rw [if_neg (by rw [hty]; decide), if_pos (by rw [hty]; decide), if_pos hpt]
      rw [doRequest_ok [] hresp (by rw [hst]; rfl) hjson]
      dsimp only
      rw [if_neg (by simp [hnn]), hfid]
      dsimp only
      rw [hloc]
    refine ⟨?_, ?_, ?_, ?_⟩
    · rw [hmain, countE_newCommon env o _ false _ isLookupE (fun m => rfl) rfl]
      rfl
    · rw [hmain, countE_newCommon env o _ false _ isFolderPostE (fun m => rfl) rfl]
      rfl
    · rw [hmain]
      exact newCommon_mem env o _ false _ (by simp)
    · rw [hmain]
      exact newCommon_mem env o _ false _ (by simp)

/-- C5, witness: a concrete directory creation under folder A issues one
lookup and one folder POST whose body carries the string local part of
the parent fid. -/
theorem claim5_witness :
    countE (Drive.newUntitled envNewDirSub optsDirSub).2 isLookupE = 1 ∧
    countE (Drive.newUntitled envNewDirSub optsDirSub).2 isFolderPostE = 1 ∧
    Effect.request (folderCreateReq (.jstr "7")) ∈
      (Drive.newUntitled envNewDirSub optsDirSub).2 := by
  have h := claim5_directory_parent.2 envNewDirSub optsDirSub
    ⟨200, "OK", some (lkpData "42:7" "fold" "A" (-1))⟩
    (lkpData "42:7" "fold" "A" (-1)) "42:7" "7" rfl rfl rfl rfl rfl rfl rfl rfl
  exact ⟨h.1, h.2.1, h.2.2.2⟩

/-- C6: get of the empty path lists the home folder with a single request
and without any lookup, returning a directory model whose content is the
ordered sequence of transformed children, each child carrying a null
content and a path equal to the child filename (no leading slash, no
drive prefix); and for a non-empty parent path every transformed child
carries parent path, slash, child filename. -/
theorem claim6_home_and_child_paths :
    (∀ (env : Env) (st : String) (data : JVal) (items : List JVal),
      env.respond homeFolderReq = .resp ⟨200, st, some data⟩ →
      (data.jget "file").truthy = false →
      (data.jget "children").truthy = true →
      (data.jget "children").jget "results" = .jarr items →
      (∀ it ∈ items, it.truthy = true) →
      ∃ m : JVal,
        Drive.get env "" = (.ok m, [Effect.request homeFolderReq]) ∧
        m.jget "type" = .jstr "directory" ∧
        m.jget "content" = .jarr (items.map (fun it => transformedEntry it (.jstr ""))) ∧
        countE (Drive.get env "").2 isLookupE = 0 ∧
        (∀ it ∈ items,
          (transformedEntry it (.jstr "")).jget "content" = .jnull ∧
          (transformedEntry it (.jstr "")).jget "path" = it.jget "filename")) ∧
    (∀ (it : JVal) (p : String), p ≠ "" →
      (transformedEntry it (.jstr p)).jget "path" =
        .jstr (p ++ "/" ++ jsToString (it.jget "filename"))) := by
  constructor
  · intro env st data items hresp hfile hch hres htr
    have hd : jsOrElse (data.jget "file") data = data := by
      unfold jsOrElse
      rw [hfile]
      rfl
    have hM : convertToJupyterApi data (tableGet FILETYPE_TO_TYPE (.jstr "fold"))
        (.jstr "") (.jstr "") (.jstr "") (.jstr "") =
        .ok (.jobj [("name", .jstr ""), ("path", .jstr ""),
          ("last_modified", .jstr ""), ("created", .jstr ""),
          ("content", .jarr (items.map (fun it => transformedEntry it (.jstr "")))),
          ("format", .jstr "json"), ("mimetype", .jstr "application/x-directory"),
          ("size", .jnull), ("writable", .jbool true), ("hash", .jnull),
          ("hash_algorithm", .jnull), ("type", .jstr "directory")]) := by
      unfold convertToJupyterApi
      dsimp only
      rw [hch]
      rw [hres]
      rw [show jsOrElse (JVal.jarr items) (.jarr []) = .jarr items from rfl]
      dsimp only
      rw [mapExcept_transform (.jstr "") items htr]
      rfl
    have hmain : Drive.get env "" = (.ok (.jobj [("name", .jstr ""), ("path", .jstr ""),
        ("last_modified", .jstr ""), ("created", .jstr ""),
        ("content", .jarr (items.map (fun it => transformedEntry it (.jstr "")))),
        ("format", .jstr "json"), ("mimetype", .jstr "application/x-directory"),
        ("size", .jnull), ("writable", .jbool true), ("hash", .jnull),
        ("hash_algorithm", .jnull), ("type", .jstr "directory")]),
        [Effect.request homeFolderReq]) := by
      have hstep : Drive.get env "" = Drive.getFetch env ["folders", "home"]
          folderListParams "fold" (.jstr "") (.jstr "") (.jstr "") "" [] := rfl
      rw [hstep]
      unfold Drive.getFetch
      rw [doRequest_ok []
        (show env.respond ⟨"GET", ["folders", "home"], folderListParams, none, []⟩ =
          .resp ⟨200, st, some data⟩ from hresp) rfl rfl]
      dsimp only
      rw [hd, hM]
      rfl
    refine ⟨_, hmain, rfl, rfl, ?_, ?_⟩
    · rw [hmain]
      rfl
    · intro it hit
      exact ⟨rfl, rfl⟩
  · intro it p hp
    have hb : (JVal.jstr p).truthy = true := by
      simp [JVal.truthy, hp]
    show (if (JVal.jstr p).truthy then
        JVal.jstr (jsToString (JVal.jstr p) ++ "/" ++ jsToString (it.jget "filename"))
      else it.jget "filename") = .jstr (p ++ "/" ++ jsToString (it.jget "filename"))
    rw [if_pos hb]
    rfl

/-- C6, witness: a concrete home listing with one child notebook returns
the directory model whose single child has content null and path equal to
its filename. -/
theorem claim6_witness :
    ∃ m : JVal,
      Drive.get envHomeW "" = (.ok m, [Effect.request homeFolderReq]) ∧
      m.jget "type" = .jstr "directory" ∧
      m.jget "content" = .jarr [transformedEntry childW (.jstr "")] ∧
      (transformedEntry childW (.jstr "")).jget "content" = .jnull ∧
      (transformedEntry childW (.jstr "")).jget "path" = .jstr "a.ipynb" := by
  obtain ⟨m, h1, h2, h3, h4, h5⟩ := claim6_home_and_child_paths.1 envHomeW "OK"
    oneChildBody [childW] rfl rfl rfl rfl
    (fun it hit => by rw [List.mem_singleton] at hit; subst hit; rfl)
  exact ⟨m, h1, h2, h3, (h5 childW (by simp)).1, (h5 childW (by simp)).2⟩

/-- C3: after the initial lookup of the old path, rename resolves the
target parent id as -1 with no extra lookup when the new parent path is
empty; reuses the parent from the initial lookup with no extra lookup
when the parents coincide; and issues exactly one extra lookup of the new
parent path and uses its parseInt-converted numeric local id when the
parents differ; in every case exactly one PATCH files/fid follows,
carrying the new leaf name and the resolved parent id. -/
theorem claim3_rename_parent_resolution (env : Env) (oldPath newPath : String)
    (r : Response) (lkp : JVal) (f : String)
    (hresp : env.respond (lookupReq oldPath) = .resp r)
    (hst : r.status = 200) (hjson : r.json = some lkp)
    (hnn : lkp.nullish = false) (hfid : lkp.jget "fid" = .jstr f) :
    (parentPathOf newPath = "" →
      countE (Drive.rename env oldPath newPath).2 isLookupE = 1 ∧
      countE (Drive.rename env oldPath newPath).2 isFilesPatchE = 1 ∧
      Effect.request (filesPatchReq f (.jobj [("filename", .jstr (leafOf newPath)),
        ("parent", .jnum (-1)), ("fid", .jstr f)])) ∈
        (Drive.rename env oldPath newPath).2) ∧
    (parentPathOf newPath ≠ "" → parentPathOf oldPath = parentPathOf newPath →
      countE (Drive.rename env oldPath newPath).2 isLookupE = 1 ∧
      countE (Drive.rename env oldPath newPath).2 isFilesPatchE = 1 ∧
      Effect.request (filesPatchReq f (.jobj [("filename", .jstr (leafOf newPath)),
        ("parent", lkp.jget "parent"), ("fid", .jstr f)])) ∈
        (Drive.rename env oldPath newPath).2) ∧
    (∀ (r2 : Response) (plkp : JVal) (g : String) (n : Int),
      parentPathOf newPath ≠ "" → parentPathOf oldPath ≠ parentPathOf newPath →
      env.respond (lookupReq (parentPathOf newPath)) = .resp r2 →
      r2.status = 200 → r2.json = some plkp → plkp.nullish = false →
      plkp.jget "fid" = .jstr g → parseIntOpt (localIdOf g) = some n →
      countE (Drive.rename env oldPath newPath).2 isLookupE = 2 ∧
      countE (Drive.rename env oldPath newPath).2 isFilesPatchE = 1 ∧
      Effect.request (lookupReq (parentPathOf newPath)) ∈
        (Drive.rename env oldPath newPath).2 ∧
      Effect.request (filesPatchReq f (.jobj [("filename", .jstr (leafOf newPath)),
        ("parent", .jnum n), ("fid", .jstr f)])) ∈
        (Drive.rename env oldPath newPath).2) := by
  have hdo : doRequest env (lookupReq oldPath) ok200 [] =
      (.ok lkp, [Effect.request (lookupReq oldPath)]) := by
    have h := @doRequest_ok env (lookupReq oldPath) ok200 r lkp [] hresp
      (by rw [hst]; rfl) hjson
    simpa using h
  have hmain : ∀ (npid : JVal) (tr2 : Trace),
      renameResolve env lkp (parentPathOf oldPath) (parentPathOf newPath)
        [Effect.request (lookupReq oldPath)] = (.ok npid, tr2) →
      Drive.rename env oldPath newPath = renamePatch env lkp npid oldPath newPath tr2 := by
    intro npid tr2 hres
    unfold Drive.rename
    rw [hdo]
    dsimp only
    rw [if_neg (by simp [hnn]), hres]
  refine ⟨?_, ?_, ?_⟩
  · intro hroot
    have hres : renameResolve env lkp (parentPathOf oldPath) (parentPathOf newPath)
        [Effect.request (lookupReq oldPath)] =
        (.ok (.jnum (-1)), [Effect.request (lookupReq oldPath)]) := by
      unfold renameResolve
      rw [if_pos hroot]
    have hm := hmain _ _ hres
    refine ⟨?_, ?_, ?_⟩
    · rw [hm, countE_renamePatch env lkp _ oldPath newPath _ isLookupE f hfid rfl rfl]
      rfl
    · rw [hm, countE_renamePatch env lkp _ oldPath newPath _ isFilesPatchE f hfid rfl rfl]
      rfl
    · rw [hm]
      exact renamePatch_req_mem env lkp _ oldPath newPath _ f hfid
  · intro hne hsame
    have hres : renameResolve env lkp (parentPathOf oldPath) (parentPathOf newPath)
        [Effect.request (lookupReq oldPath)] =
        (.ok (lkp.jget "parent"), [Effect.request (lookupReq oldPath)]) := by
      unfold renameResolve
      rw [if_neg hne, if_neg (fun hcon => hcon hsame)]
    have hm := hmain _ _ hres
    refine ⟨?_, ?_, ?_⟩
    · rw [hm, countE_renamePatch env lkp _ oldPath newPath _ isLookupE f hfid rfl rfl]
      rfl
    · rw [hm, countE_renamePatch env lkp _ oldPath newPath _ isFilesPatchE f hfid rfl rfl]
      rfl
    · rw [hm]
      exact renamePatch_req_mem env lkp _ oldPath newPath _ f hfid
  · intro r2 plkp g n hne hdiff hresp2 hst2 hjson2 hnn2 hfid2 hn
    have hdo2 : doRequest env (lookupReq (parentPathOf newPath)) ok200
        [Effect.request (lookupReq oldPath)] =
        (.ok plkp, [Effect.request (lookupReq oldPath),
          Effect.request (lookupReq (parentPathOf newPath))]) := by
      have h := @doRequest_ok env (lookupReq (parentPathOf newPath)) ok200 r2 plkp
        [Effect.request (lookupReq oldPath)] hresp2 (by rw [hst2]; rfl) hjson2
      simpa using h
    have hres : renameResolve env lkp (parentPathOf oldPath) (parentPathOf newPath)
        [Effect.request (lookupReq oldPath)] =
        (.ok (.jnum n), [Effect.request (lookupReq oldPath),
          Effect.request (lookupReq (parentPathOf newPath))]) := by
      unfold renameResolve
      rw [if_neg hne, if_pos hdiff, hdo2]
      dsimp only
      rw [if_neg (by simp [hnn2]), hfid2]
      dsimp only
      rw [hn]
    have hm := hmain _ _ hres
    refine ⟨?_, ?_, ?_, ?_⟩
    · rw [hm, countE_renamePatch env lkp _ oldPath newPath _ isLookupE f hfid rfl rfl]
      rfl
    · rw [hm, countE_renamePatch env lkp _ oldPath newPath _ isFilesPatchE f hfid rfl rfl]
      rfl
    · rw [hm]
      exact renamePatch_mem env lkp _ oldPath newPath _ f hfid (by simp)
    · rw [hm]
      exact renamePatch_req_mem env lkp _ oldPath newPath _ f hfid

/-- C3, witness: moving a concrete notebook from folder A to folder B
issues exactly two lookups and one files PATCH carrying the new leaf name
and parent id 9 (the parseInt of the local part of the fid of B). -/
theorem claim3_witness :
    countE (Drive.rename envRenameW "A/x.ipynb" "B/x.ipynb").2 isLookupE = 2 ∧
    countE (Drive.rename envRenameW "A/x.ipynb" "B/x.ipynb").2 isFilesPatchE = 1 ∧
    Effect.request (filesPatchReq "42:3" (.jobj [("filename", .jstr (leafOf "B/x.ipynb")),
      ("parent", .jnum 9), ("fid", .jstr "42:3")])) ∈
      (Drive.rename envRenameW "A/x.ipynb" "B/x.ipynb").2 := by
  have h := (claim3_rename_parent_resolution envRenameW "A/x.ipynb" "B/x.ipynb"
    ⟨200, "OK", some (lkpData "42:3" "jupyter_notebook" "x.ipynb" 7)⟩
    (lkpData "42:3" "jupyter_notebook" "x.ipynb" 7) "42:3" rfl rfl rfl rfl rfl).2.2
    ⟨200, "OK", some (lkpData "42:9" "fold" "B" (-1))⟩
    (lkpData "42:9" "fold" "B" (-1)) "42:9" 9 (by decide) (by decide) rfl rfl rfl rfl rfl rfl
  exact ⟨h.1, h.2.1, h.2.2.2⟩

end RemoteContents
